import Mathlib

/-!
# Spegel command line wiring: `pkg/cli`

A shallow embedding of `pkg/cli/cli.go`, `pkg/cli/configuration.go` and
`pkg/cli/registry.go`.

* Go strings are Lean strings, `int` and `time.Duration` are `Int`.
* A Go `error` value is a `GoError`; `nil` is `Option.none`.
* Calls into other packages (`oci`, `routing`, `state`, `registry`, `metrics`, `net`,
  `net/url`, `time`, `ffcli`) are not part of these files.  Their results are supplied by an
  explicit environment, and the calls the code makes are recorded in a trace, so that every
  statement below holds for all behaviours of those packages.
* The parts of the standard library that decide what the `blob-speed` flag accepts, `flag`
  and `strconv.ParseInt`, are embedded as functions; `errgroup` is embedded by what `Wait`
  returns.
-/

namespace Spegel

/-! ## Errors -/

/-- Go `error` values: the sentinel `http.ErrServerClosed`, an error made by `errors.New` or by
`fmt.Errorf` without `%w`, and an error made by `fmt.Errorf` with `%w` around another one. -/
inductive GoError where
  | ErrServerClosed
  | msg (text : String)
  | wrap (text : String) (inner : GoError)
  deriving DecidableEq, Repr

/-- Go `err.Error()`. -/
def GoError.Error : GoError → String
  | .ErrServerClosed => "http: Server closed"
  | .msg text => text
  | .wrap text _ => text

/-- Go `errors.Is(err, target)`: `err` or one of the errors it wraps is `target`. -/
def errorsIs : GoError → GoError → Bool
  | .wrap text inner, target => (GoError.wrap text inner == target) || errorsIs inner target
  | err, target => err == target

/-! ## `net/url` -/

/-- Go `url.Userinfo`. -/
structure Userinfo where
  username : String := ""
  password : String := ""
  passwordSet : Bool := false
  deriving DecidableEq, Repr

/-- Go `url.URL`; the zero value `{}` is the empty URL. -/
structure URL where
  Scheme : String := ""
  Opaque : String := ""
  User : Option Userinfo := none
  Host : String := ""
  Path : String := ""
  RawPath : String := ""
  OmitHost : Bool := false
  ForceQuery : Bool := false
  RawQuery : String := ""
  Fragment : String := ""
  RawFragment : String := ""
  deriving DecidableEq, Repr

/-! ## Configuration types -/

/-- Go `urlsValue` of `cli.go`: parses command line arguments to `[]url.URL` fields. -/
structure urlsValue where
  URLs : List URL := []
  deriving DecidableEq, Repr

/-- Go `ConfigurationConfig` of `configuration.go`. -/
structure ConfigurationConfig where
  ContainerdRegistryConfigPath : String := ""
  Registries : List URL := []
  MirrorRegistries : List URL := []
  ResolveTags : Bool := false
  registriesValue : urlsValue := {}
  mirrorRegistriesValue : urlsValue := {}
  deriving DecidableEq, Repr

/-- Go `BootstrapConfig` of `registry.go`. -/
structure BootstrapConfig where
  BootstrapKind : String := ""
  HTTPBootstrapAddr : String := ""
  HTTPBootstrapPeer : String := ""
  KubeconfigPath : String := ""
  LeaderElectionName : String := ""
  LeaderElectionNamespace : String := ""
  deriving DecidableEq, Repr

/-- A Go `*throttle.Byterate`.  The only pointer `pkg/cli` itself makes is the address of the
`blobSpeedValue` field of the same `RegistryConfig`; any other pointer a caller stores is a
pointer to a value of its own. -/
inductive ByteratePtr where
  | blobSpeedValueAddr
  | other (value : Int)
  deriving DecidableEq, Repr

/-- Go `RegistryConfig` of `registry.go`; the embedded `BootstrapConfig` is the field
`toBootstrapConfig`, and a nil `BlobSpeed` is `none`. -/
structure RegistryConfig extends BootstrapConfig where
  BlobSpeed : Option ByteratePtr := none
  ContainerdRegistryConfigPath : String := ""
  MetricsAddr : String := ""
  LocalAddr : String := ""
  ContainerdSock : String := ""
  ContainerdNamespace : String := ""
  RouterAddr : String := ""
  RegistryAddr : String := ""
  Registries : List URL := []
  MirrorResolveTimeout : Int := 0
  MirrorResolveRetries : Int := 0
  ResolveLatestTag : Bool := false
  blobSpeedValue : Int := 0
  registriesValue : urlsValue := {}
  deriving DecidableEq, Repr

/-- Go `*p` for a `*throttle.Byterate` held by `config`. -/
def RegistryConfig.deref (config : RegistryConfig) : ByteratePtr → Int
  | .blobSpeedValueAddr => config.blobSpeedValue
  | .other value => value

/-! ## `getBootstrapper` -/

/-- A Kubernetes clientset, as `pkgkubernetes.GetKubernetesClientset` returns it for a
kubeconfig path. -/
structure Clientset where
  kubeconfigPath : String
  deriving DecidableEq, Repr

/-- Go `routing.Bootstrapper`: what `routing.NewHTTPBootstrapper(addr, peer)` and
`routing.NewKubernetesBootstrapper(cs, namespace, name)` return, with their arguments. -/
inductive Bootstrapper where
  | NewHTTPBootstrapper (addr peer : String)
  | NewKubernetesBootstrapper (cs : Clientset) (leaderElectionNamespace leaderElectionName : String)
  deriving DecidableEq, Repr

/-- Go `getBootstrapper` of `registry.go`.  The result is the Go pair `(bootstrapper, err)`.
`GetKubernetesClientset` is `pkgkubernetes.GetKubernetesClientset`. -/
def getBootstrapper (GetKubernetesClientset : String → Except GoError Clientset)
    (config : BootstrapConfig) : Option Bootstrapper × Option GoError :=
  if config.BootstrapKind = "http" then
    (some (Bootstrapper.NewHTTPBootstrapper config.HTTPBootstrapAddr config.HTTPBootstrapPeer), none)
  else if config.BootstrapKind = "kubernetes" then
    match GetKubernetesClientset config.KubeconfigPath with
    | .error err => (none, some err)
    | .ok cs =>
      (some (Bootstrapper.NewKubernetesBootstrapper cs config.LeaderElectionNamespace
        config.LeaderElectionName), none)
  else
    (none, some (GoError.msg ("unknown bootstrap kind " ++ config.BootstrapKind)))

/-! ## `registryExec` -/

/-- Go `registry.Option`: the option constructors of the `registry` package, with their
arguments. -/
inductive RegistryOption where
  | WithResolveLatestTag (resolveLatestTag : Bool)
  | WithResolveRetries (resolveRetries : Int)
  | WithResolveTimeout (resolveTimeout : Int)
  | WithLocalAddress (localAddr : String)
  | WithBlobSpeed (blobSpeed : Int)
  deriving DecidableEq, Repr

/-- The client `oci.NewContainerd(sock, namespace, registryConfigPath, registries)` returns. -/
structure OciClient where
  sock : String
  containerdNamespace : String
  registryConfigPath : String
  registries : List URL
  deriving DecidableEq, Repr

/-- The router `routing.NewP2PRouter(ctx, addr, bootstrapper, registryPort)` returns. -/
structure Router where
  addr : String
  bootstrapper : Option Bootstrapper
  registryPort : String
  deriving DecidableEq, Repr

/-- The functions `registryExec` hands to `g.Go`, named after the call each one makes. -/
inductive Worker where
  | metricsListenAndServe (addr : String)
  | metricsShutdown (addr : String)
  | routerRun (router : Router)
  | routerClose (router : Router)
  | stateTrack (ociClient : OciClient) (router : Router) (resolveLatestTag : Bool)
  | registryListenAndServe (addr : String)
  | registryShutdown (addr : String)
  deriving DecidableEq, Repr

/-- The calls of `registryExec` into the packages that hold state or start something, in the
order the code makes them. -/
inductive Call where
  | NewContainerd (sock containerdNamespace registryConfigPath : String) (registries : List URL)
  | Verify (ociClient : OciClient)
  | metricsRegister
  | NewP2PRouter (addr : String) (bootstrapper : Option Bootstrapper) (registryPort : String)
  | Go (worker : Worker)
  | NewRegistry (ociClient : OciClient) (router : Router) (opts : List RegistryOption)
  | Server (addr : String)
  | Info (registry router : String)
  | Wait
  deriving DecidableEq, Repr

/-- What the packages called by `registryExec` answer: the error of each constructor and of
`Verify` (nil is `none`), and the result of `net.SplitHostPort`.  `returned w` is what the
call at the heart of worker `w` returns (`ListenAndServe`, `Shutdown`, `Run`, `Close`,
`Track`) and `finished i` is the instant at which the `i`-th started worker returns.  Every
worker is taken to return once the context of the group is cancelled, as `http.Server`,
`routing` and `state` promise; this is what lets `g.Wait()` return at all. -/
structure Env where
  NewContainerd : String → String → String → List URL → Option GoError
  Verify : OciClient → Option GoError
  SplitHostPort : String → Except GoError (String × String)
  GetKubernetesClientset : String → Except GoError Clientset
  NewP2PRouter : String → Option Bootstrapper → String → Option GoError
  returned : Worker → Option GoError
  finished : Nat → Nat

/-- The body of each function handed to `g.Go`: the two `ListenAndServe` workers drop an
error that is `http.ErrServerClosed`, the others return what their call returns. -/
def Worker.run (env : Env) : Worker → Option GoError
  | .metricsListenAndServe addr =>
    match env.returned (.metricsListenAndServe addr) with
    | some err => if !errorsIs err GoError.ErrServerClosed then some err else none
    | none => none
  | .registryListenAndServe addr =>
    match env.returned (.registryListenAndServe addr) with
    | some err => if !errorsIs err GoError.ErrServerClosed then some err else none
    | none => none
  | w => env.returned w

/-- Go `(*errgroup.Group).Wait`: once every started function has returned, it gives the first
non-nil error returned, in the order in which the functions returned (those that return at the
same instant are taken in the order they were started). -/
def Group.Wait (finished : Nat → Nat) (results : List (Option GoError)) : Option GoError :=
  (results.enum.insertionSort (fun a b => finished a.1 ≤ finished b.1)).findSome? Prod.snd

/-- Whether the call of the worker is `ListenAndServe` of one of the two HTTP servers. -/
def Worker.isListenAndServe : Worker → Bool
  | .metricsListenAndServe _ => true
  | .registryListenAndServe _ => true
  | _ => false

/-- The workers a trace has started with `g.Go`, in order. -/
def startedWorkers (trace : List Call) : List Worker :=
  trace.filterMap fun call =>
    match call with
    | .Go worker => some worker
    | _ => none

/-- What one run of `registryExec` does: the error it returns and the calls it made. -/
structure ExecResult where
  err : Option GoError
  trace : List Call
  deriving DecidableEq, Repr

/-- Go `registryExec` of `registry.go`. -/
def registryExec (env : Env) (config : RegistryConfig) : ExecResult :=
  -- OCI Client
  match env.NewContainerd config.ContainerdSock config.ContainerdNamespace
      config.ContainerdRegistryConfigPath config.Registries with
  | some err => ⟨some err, [Call.NewContainerd config.ContainerdSock config.ContainerdNamespace
      config.ContainerdRegistryConfigPath config.Registries]⟩
  | none =>
  let ociClient : OciClient := ⟨config.ContainerdSock, config.ContainerdNamespace,
    config.ContainerdRegistryConfigPath, config.Registries⟩
  let trace := [Call.NewContainerd config.ContainerdSock config.ContainerdNamespace
    config.ContainerdRegistryConfigPath config.Registries, Call.Verify ociClient]
  match env.Verify ociClient with
  | some err => ⟨some err, trace⟩
  | none =>
  -- Metrics
  let metricsListenAndServe := Worker.metricsListenAndServe config.MetricsAddr
  let metricsShutdown := Worker.metricsShutdown config.MetricsAddr
  let trace := trace ++
    [Call.metricsRegister, Call.Go metricsListenAndServe, Call.Go metricsShutdown]
  -- Router
  match env.SplitHostPort config.RegistryAddr with
  | .error err => ⟨some err, trace⟩
  | .ok (_, registryPort) =>
  match getBootstrapper env.GetKubernetesClientset config.toBootstrapConfig with
  | (_, some err) => ⟨some err, trace⟩
  | (bootstrapper, none) =>
  let trace := trace ++ [Call.NewP2PRouter config.RouterAddr bootstrapper registryPort]
  match env.NewP2PRouter config.RouterAddr bootstrapper registryPort with
  | some err => ⟨some err, trace⟩
  | none =>
  let router : Router := ⟨config.RouterAddr, bootstrapper, registryPort⟩
  let routerRun := Worker.routerRun router
  let routerClose := Worker.routerClose router
  -- State tracking
  let stateTrack := Worker.stateTrack ociClient router config.ResolveLatestTag
  -- Registry
  let registryOpts := [
    RegistryOption.WithResolveLatestTag config.ResolveLatestTag,
    RegistryOption.WithResolveRetries config.MirrorResolveRetries,
    RegistryOption.WithResolveTimeout config.MirrorResolveTimeout,
    RegistryOption.WithLocalAddress config.LocalAddr]
  let registryOpts :=
    match config.BlobSpeed with
    | some p => registryOpts ++ [RegistryOption.WithBlobSpeed (config.deref p)]
    | none => registryOpts
  let registryListenAndServe := Worker.registryListenAndServe config.RegistryAddr
  let registryShutdown := Worker.registryShutdown config.RegistryAddr
  let trace := trace ++ [Call.Go routerRun, Call.Go routerClose, Call.Go stateTrack,
    Call.NewRegistry ociClient router registryOpts, Call.Server config.RegistryAddr,
    Call.Go registryListenAndServe, Call.Go registryShutdown,
    Call.Info config.RegistryAddr config.RouterAddr, Call.Wait]
  let err := Group.Wait env.finished ([metricsListenAndServe, metricsShutdown, routerRun,
    routerClose, stateTrack, registryListenAndServe, registryShutdown].map (Worker.run env))
  ⟨err, trace⟩

/-! ## `strconv`, as the `flag` package uses it -/

/-- Go `strconv.ErrSyntax` and `strconv.ErrRange`, the two causes of a `*strconv.NumError`. -/
inductive NumError where
  | ErrSyntax
  | ErrRange
  deriving DecidableEq, Repr

/-- The value of the digit `c` in `strconv.ParseUint`: `0`-`9`, then the letters in either
case from 10 on; `none` for any other character. -/
def digitVal (c : Char) : Option Nat :=
  if '0' ≤ c ∧ c ≤ '9' then some (c.toNat - '0'.toNat)
  else if 'a'.toNat ≤ (c.toNat ||| 32) ∧ (c.toNat ||| 32) ≤ 'z'.toNat then
    some ((c.toNat ||| 32) - 'a'.toNat + 10)
  else none

/-- The digit loop of `strconv.ParseUint` at bit size 64: `n` is the number read so far and
`underscores` tells whether an underscore was skipped. -/
def parseUintLoop (base : Nat) (base0 : Bool) : List Char → Nat → Bool →
    Nat × Bool × Option NumError
  | [], n, underscores => (n, underscores, none)
  | c :: cs, n, underscores =>
    if c = '_' ∧ base0 = true then parseUintLoop base base0 cs n true
    else
      match digitVal c with
      | none => (0, underscores, some NumError.ErrSyntax)
      | some d =>
        if d ≥ base then (0, underscores, some NumError.ErrSyntax)
        else if n ≥ (2 ^ 64 - 1) / base + 1 then (2 ^ 64 - 1, underscores, some NumError.ErrRange)
        else if n * base + d > 2 ^ 64 - 1 then (2 ^ 64 - 1, underscores, some NumError.ErrRange)
        else parseUintLoop base base0 cs (n * base + d) underscores

/-- The number proper in `strconv.underscoreOK`; `i` is the kind of the previous character:
`^` at the beginning, `0` after a digit or base prefix, `_` after an underscore, `!` else. -/
def underscoreOKLoop (hex : Bool) : List Char → Char → Bool
  | [], i => i ≠ '_'
  | c :: cs, i =>
    if ('0' ≤ c ∧ c ≤ '9') ∨
        (hex = true ∧ 'a'.toNat ≤ (c.toNat ||| 32) ∧ (c.toNat ||| 32) ≤ 'f'.toNat) then
      underscoreOKLoop hex cs '0'
    else if c = '_' then
      if i ≠ '0' then false else underscoreOKLoop hex cs '_'
    else if i = '_' then false
    else underscoreOKLoop hex cs '!'

/-- Go `strconv.underscoreOK`: underscores only between digits or after the base prefix. -/
def underscoreOK (s : List Char) : Bool :=
  let s := match s with
    | '-' :: rest => rest
    | '+' :: rest => rest
    | _ => s
  match s with
  | '0' :: c :: rest =>
    if (c.toNat ||| 32) = 'b'.toNat ∨ (c.toNat ||| 32) = 'o'.toNat ∨ (c.toNat ||| 32) = 'x'.toNat then
      underscoreOKLoop ((c.toNat ||| 32) = 'x'.toNat) rest '0'
    else underscoreOKLoop false s '^'
  | _ => underscoreOKLoop false s '^'

/-- The base prefix that `strconv.ParseUint` looks for when the base is 0: the base, and the
digits after the prefix.  "0b", "0o" and "0x" count only when a digit follows; another leading
"0" means octal. -/
def basePrefix (s : List Char) : Nat × List Char :=
  match s with
  | '0' :: c1 :: c2 :: rest =>
    if (c1.toNat ||| 32) = 'b'.toNat then (2, c2 :: rest)
    else if (c1.toNat ||| 32) = 'o'.toNat then (8, c2 :: rest)
    else if (c1.toNat ||| 32) = 'x'.toNat then (16, c2 :: rest)
    else (8, c1 :: c2 :: rest)
  | '0' :: rest => (8, rest)
  | _ => (10, s)

/-- Go `strconv.ParseUint(s, 0, 64)`: the value returned and the cause of the error, if any. -/
def ParseUint (s : List Char) : Nat × Option NumError :=
  if s = [] then (0, some NumError.ErrSyntax)
  else
    match parseUintLoop (basePrefix s).1 true (basePrefix s).2 0 false with
    | (n, _, some err) => (n, some err)
    | (n, underscores, none) =>
      if underscores = true ∧ underscoreOK s = false then (0, some NumError.ErrSyntax)
      else (n, none)

/-- The sign that `strconv.ParseInt` picks off: whether the number is negative, and the rest. -/
def signOf (s : List Char) : Bool × List Char :=
  match s with
  | '+' :: rest => (false, rest)
  | '-' :: rest => (true, rest)
  | _ => (false, s)

/-- Go `strconv.ParseInt(s, 0, 64)`, the call `flag` makes for an `int` flag on a 64-bit
platform: the value returned and the cause of the error, if any. -/
def ParseInt (s : List Char) : Int × Option NumError :=
  if s = [] then (0, some NumError.ErrSyntax)
  else
    match ParseUint (signOf s).2 with
    | (_, some NumError.ErrSyntax) => (0, some NumError.ErrSyntax)
    | (un, _) =>
      if (signOf s).1 = false ∧ un ≥ 2 ^ 63 then (2 ^ 63 - 1, some NumError.ErrRange)
      else if (signOf s).1 = true ∧ un > 2 ^ 63 then (-(2 ^ 63), some NumError.ErrRange)
      else (if (signOf s).1 then -(un : Int) else (un : Int), none)

/-- Go `strconv.ParseBool`. -/
def ParseBool (str : String) : Bool × Option NumError :=
  if str ∈ ["1", "t", "T", "TRUE", "true", "True"] then (true, none)
  else if str ∈ ["0", "f", "F", "FALSE", "false", "False"] then (false, none)
  else (false, some NumError.ErrSyntax)

/-! ## The `flag` package -/

/-- Go `flag.Flag`, with the `flag.Value` it holds: `IsBoolFlag` tells whether the value is a
boolean flag, and `Set value config` is `Value.Set(value)` acting on the variable of `config`
the flag is bound to, with the error it returns. -/
structure Flag (σ : Type) where
  Name : String
  Usage : String
  IsBoolFlag : Bool
  Set : String → σ → σ × Option GoError

/-- Go `flag.FlagSet` over the variables of a configuration `σ`: the configuration as the
registrations have left it, and the flags defined so far. -/
structure FlagSet (σ : Type) where
  config : σ
  formal : List (Flag σ)

/-- Go `errParse` and `errRange` of the `flag` package, as `numError` picks them. -/
def numError : NumError → GoError
  | .ErrSyntax => GoError.msg "parse error"
  | .ErrRange => GoError.msg "value out of range"

/-- Go `(*FlagSet).StringVar(p, name, value, usage)`; `p` is the variable as its setter. -/
def FlagSet.StringVar {σ : Type} (fs : FlagSet σ) (p : σ → String → σ)
    (name value usage : String) : FlagSet σ :=
  ⟨p fs.config value, fs.formal ++ [⟨name, usage, false, fun s config => (p config s, none)⟩]⟩

/-- Go `(*FlagSet).IntVar(p, name, value, usage)`; `(*intValue).Set` stores what
`strconv.ParseInt(s, 0, strconv.IntSize)` returns, also when it returns an error. -/
def FlagSet.IntVar {σ : Type} (fs : FlagSet σ) (p : σ → Int → σ)
    (name : String) (value : Int) (usage : String) : FlagSet σ :=
  ⟨p fs.config value, fs.formal ++ [⟨name, usage, false, fun s config =>
    (p config (ParseInt s.toList).1, (ParseInt s.toList).2.map numError)⟩]⟩

/-- Go `(*FlagSet).BoolVar(p, name, value, usage)`. -/
def FlagSet.BoolVar {σ : Type} (fs : FlagSet σ) (p : σ → Bool → σ)
    (name : String) (value : Bool) (usage : String) : FlagSet σ :=
  ⟨p fs.config value, fs.formal ++ [⟨name, usage, true, fun s config =>
    (p config (ParseBool s).1, (ParseBool s).2.map fun _ => GoError.msg "parse error")⟩]⟩

/-- Go `(*FlagSet).DurationVar(p, name, value, usage)`; `ParseDuration` is
`time.ParseDuration`, and a string it rejects stores the zero duration. -/
def FlagSet.DurationVar {σ : Type} (ParseDuration : String → Except GoError Int)
    (fs : FlagSet σ) (p : σ → Int → σ) (name : String) (value : Int) (usage : String) :
    FlagSet σ :=
  ⟨p fs.config value, fs.formal ++ [⟨name, usage, false, fun s config =>
    match ParseDuration s with
    | .ok d => (p config d, none)
    | .error _ => (p config 0, some (GoError.msg "parse error"))⟩]⟩

/-- Go `(*FlagSet).Var(value, name, usage)` for a value that is no boolean flag: `set` is the
`Set` method of the value, acting on the configuration that holds it. -/
def FlagSet.Var {σ : Type} (fs : FlagSet σ) (set : String → σ → σ × Option GoError)
    (name usage : String) : FlagSet σ :=
  ⟨fs.config, fs.formal ++ [⟨name, usage, false, set⟩]⟩

/-- Go `f.formal[name]`. -/
def FlagSet.lookup {σ : Type} (formal : List (Flag σ)) (name : String) : Option (Flag σ) :=
  formal.find? fun f => f.Name == name

/-- How `(*FlagSet).Parse` ends in a flag set made with `flag.ExitOnError`: it returns nil
with the remaining arguments, or it ends the process with `os.Exit(code)`. -/
inductive ParseOutcome (σ : Type) where
  | returned (config : σ) (args : List String)
  | osExit (code : Nat) (config : σ)
  deriving DecidableEq, Repr

/-- The name and the value of a flag written `name=value`; the equals sign cannot be first. -/
def splitNameValue : List Char → List Char × Option (List Char)
  | [] => ([], none)
  | c :: cs => (c :: (cs.span fun x => x ≠ '=').1,
      match (cs.span fun x => x ≠ '=').2 with
      | [] => none
      | _ :: value => some value)

/-- What Go `(*FlagSet).parseOne` returns: `(true, nil)` after a flag was set, `(false, nil)`
when the next argument is no flag, and `(false, err)` as the exit status that `Parse` gives
the error under `flag.ExitOnError` (0 for `ErrHelp`, 2 for the others).  Each comes with the
configuration and the arguments left. -/
inductive ParseOneResult (σ : Type) where
  | seen (config : σ) (args : List String)
  | done (config : σ) (args : List String)
  | failed (code : Nat) (config : σ)
  deriving DecidableEq, Repr

/-- Go `(*FlagSet).parseOne` on the arguments `f.args`. -/
def FlagSet.parseOne {σ : Type} (formal : List (Flag σ)) (args : List String) (config : σ) :
    ParseOneResult σ :=
  match args with
  | [] => .done config []
  | s :: args =>
    if s.toList.length < 2 ∨ s.toList.head? ≠ some '-' then .done config (s :: args)
    else if s.toList.get? 1 = some '-' ∧ s.toList.length = 2 then
      .done config args -- "--" terminates the flags
    else
      let name := if s.toList.get? 1 = some '-' then s.toList.drop 2 else s.toList.drop 1
      if name = [] ∨ name.head? = some '-' ∨ name.head? = some '=' then
        .failed 2 config -- bad flag syntax
      else
        match FlagSet.lookup formal (String.mk (splitNameValue name).1) with
        | none =>
          -- the special case of the help message, else: flag provided but not defined
          if String.mk (splitNameValue name).1 = "help" ∨ String.mk (splitNameValue name).1 = "h"
          then .failed 0 config
          else .failed 2 config
        | some flag =>
          if flag.IsBoolFlag then
            match flag.Set (String.mk ((splitNameValue name).2.getD "true".toList)) config with
            | (config, some _) => .failed 2 config -- invalid boolean value
            | (config, none) => .seen config args
          else
            match (splitNameValue name).2, args with
            | some value, args =>
              match flag.Set (String.mk value) config with
              | (config, some _) => .failed 2 config -- invalid value
              | (config, none) => .seen config args
            -- It must have a value, which might be the next argument.
            | none, [] => .failed 2 config -- flag needs an argument
            | none, value :: args =>
              match flag.Set value config with
              | (config, some _) => .failed 2 config -- invalid value
              | (config, none) => .seen config args

/-- The loop of Go `(*FlagSet).Parse` over `parseOne`, for at most `fuel` flags. -/
def FlagSet.parseLoop {σ : Type} (formal : List (Flag σ)) :
    Nat → List String → σ → ParseOutcome σ
  | 0, args, config => .returned config args
  | fuel + 1, args, config =>
    match FlagSet.parseOne formal args config with
    | .seen config args => FlagSet.parseLoop formal fuel args config
    | .done config args => .returned config args
    | .failed code config => .osExit code config

/-- Go `(*FlagSet).Parse(arguments)` with `flag.ExitOnError`.  Every flag takes at least one
argument, so the loop ends within as many rounds as there are arguments. -/
def FlagSet.Parse {σ : Type} (formal : List (Flag σ)) (arguments : List String) (config : σ) :
    ParseOutcome σ :=
  FlagSet.parseLoop formal (arguments.length + 1) arguments config

/-! ## `cli.go`: `urlsValue` -/

/-- What the packages outside `pkg/cli` that parse text answer: `urlParse` is `url.Parse`,
`urlString` is `(*url.URL).String` and `ParseDuration` is `time.ParseDuration`. -/
structure Lib where
  urlParse : String → Except GoError URL
  urlString : URL → String
  ParseDuration : String → Except GoError Int

/-- Go `strings.Split` on the characters of a string, for a separator of one character. -/
def splitChars (sep : Char) : List Char → List (List Char)
  | [] => [[]]
  | c :: cs =>
    if c = sep then [] :: splitChars sep cs
    else
      match splitChars sep cs with
      | [] => [[c]]
      | str :: strs => (c :: str) :: strs

/-- Go `strings.Split(s, sep)` for a separator of one character. -/
def stringsSplit (s : String) (sep : Char) : List String :=
  (splitChars sep s.toList).map String.mk

/-- The loop of `(*urlsValue).Set` over the strings still to parse, `urls` being the URLs
appended so far: the URLs of all the strings, or the error of the first that fails. -/
def urlsValue.SetLoop (lib : Lib) (s : String) : List String → List URL → Except GoError (List URL)
  | [], urls => .ok urls
  | str :: strs, urls =>
    match lib.urlParse str with
    | .error err =>
      .error (GoError.wrap ("failed to parse URLs from \x27" ++ s ++ "\x27: " ++ err.Error) err)
    | .ok url => urlsValue.SetLoop lib s strs (urls ++ [url])

/-- Go `(*urlsValue).Set` of `cli.go`: the value afterwards and the error returned. -/
def urlsValue.Set (lib : Lib) (v : urlsValue) (s : String) : urlsValue × Option GoError :=
  match urlsValue.SetLoop lib s (stringsSplit s ',') [] with
  | .error err => (v, some err)
  | .ok urls => ({ v with URLs := urls }, none)

/-- Go `(*urlsValue).String` of `cli.go`. -/
def urlsValue.String (lib : Lib) (v : urlsValue) : String :=
  ",".intercalate (v.URLs.map lib.urlString)

/-! ## `configuration.go` and `registry.go`: the flag sets -/

/-- Go `newConfigurationCommand` of `configuration.go`: the flag set named "configuration"
over `config`.  Its `Exec` runs `configurationExec` on the same `config`. -/
def newConfigurationCommand (lib : Lib) (config : ConfigurationConfig) :
    FlagSet ConfigurationConfig :=
  let fs : FlagSet ConfigurationConfig := ⟨config, []⟩
  let fs := fs.StringVar (fun c v => { c with ContainerdRegistryConfigPath := v })
    "containerd-registry-config-path" "/etc/containerd/certs.d"
    "Directory where mirror configuration is written."
  let fs := fs.Var (fun s c =>
      ({ c with registriesValue := (c.registriesValue.Set lib s).1 }, (c.registriesValue.Set lib s).2))
    "registries" "Registries that are configured to be mirrored."
  let fs := fs.Var (fun s c =>
      ({ c with mirrorRegistriesValue := (c.mirrorRegistriesValue.Set lib s).1 },
        (c.mirrorRegistriesValue.Set lib s).2))
    "mirror-registries" "Registries that are configured to act as mirrored."
  let fs := fs.BoolVar (fun c v => { c with ResolveTags := v })
    "resolve-tags" true "When true Spegel will resolve tags to digests."
  fs

/-- Go `newRegistryCommand` of `registry.go`: the flag set named "registry" over `config`.
Its `Exec` runs `registryExec` on the same `config`. -/
def newRegistryCommand (lib : Lib) (config : RegistryConfig) : FlagSet RegistryConfig :=
  let fs : FlagSet RegistryConfig := ⟨config, []⟩
  let fs := fs.IntVar (fun c v => { c with blobSpeedValue := v }) "blob-speed" 0
    "Maximum write speed per request when serving blob layers. Should be an integer followed by unit Bps, KBps, MBps, GBps, or TBps."
  let fs := fs.StringVar (fun c v => { c with ContainerdRegistryConfigPath := v })
    "containerd-registry-config-path" "" "Directory where mirror configuration is written."
  let fs := fs.StringVar (fun c v => { c with MetricsAddr := v })
    "metrics-addr" "" "Address to serve metrics."
  let fs := fs.StringVar (fun c v => { c with LocalAddr := v })
    "local-addr" "" "Address that the local Spegel instance will be reached at."
  let fs := fs.StringVar (fun c v => { c with ContainerdSock := v })
    "containerd-sock" "/run/containerd/containerd.sock" "Endpoint of containerd service."
  let fs := fs.StringVar (fun c v => { c with ContainerdNamespace := v })
    "containerd-namespace" "k8s.io" "Containerd namespace to fetch images from."
  let fs := fs.StringVar (fun c v => { c with RouterAddr := v })
    "router-addr" "" "Address to serve router."
  let fs := fs.StringVar (fun c v => { c with RegistryAddr := v })
    "registry-addr" "" "Address to server image registry."
  let fs := fs.Var (fun s c =>
      ({ c with registriesValue := (c.registriesValue.Set lib s).1 }, (c.registriesValue.Set lib s).2))
    "registries" "Registries that are configured to be mirrored."
  let fs := fs.DurationVar lib.ParseDuration (fun c v => { c with MirrorResolveTimeout := v })
    "mirror-resolve-timeout" (5 * 1000000000) "Max duration spent finding a mirror."
  let fs := fs.IntVar (fun c v => { c with MirrorResolveRetries := v })
    "mirror-resolve-retries" 3 "Max amount of mirrors to attempt."
  let fs := fs.BoolVar (fun c v => { c with ResolveLatestTag := v })
    "resolve-latest-tag" true "When true latest tags will be resolved to digests."
  let fs := fs.StringVar (fun c v => { c with BootstrapKind := v })
    "boostrap-kind" "" "Kind of bootsrapper to use."
  let fs := fs.StringVar (fun c v => { c with HTTPBootstrapAddr := v })
    "http-bootstrap-addr" "" "Address to serve for HTTP bootstrap."
  let fs := fs.StringVar (fun c v => { c with HTTPBootstrapPeer := v })
    "http-bootstrap-peer" "" "Peer to HTTP bootstrap with."
  let fs := fs.StringVar (fun c v => { c with KubeconfigPath := v })
    "kubeconfig-path" "" "Path to the kubeconfig file."
  let fs := fs.StringVar (fun c v => { c with LeaderElectionName := v })
    "leader-election-name" "spegel-leader-election" "Name of the leader election."
  let fs := fs.StringVar (fun c v => { c with LeaderElectionNamespace := v })
    "leader-election-namespace" "spegel" "Kubernetes namespace to write leader election data."
  fs

/-! ## `cli.go`: `Command` -/

/-- One `flag.Value.Set(value)` call that `(*ffcli.Command).Parse` makes while it parses, on
the flag `name` of the flag set of the configuration (`registry = false`) or of the registry
(`registry = true`) subcommand. -/
structure SetCall where
  registry : Bool
  name : String
  value : String
  deriving DecidableEq, Repr

/-- What one call of `(*ffcli.Command).Parse` does: the `Set` calls it makes on the flags of
the two subcommands, in order, and the error it returns.  The flags are its only access to the
configuration, so this covers every behaviour of the `ffcli`, `ff` and `flag` packages. -/
structure CmdParse where
  sets : List SetCall
  err : Option GoError
  deriving DecidableEq, Repr

/-- The Go `*ffcli.Command` that `New` builds: the flags of its two subcommands, and what its
`Parse` does on given arguments. -/
structure ffcliCommand where
  configuration : List (Flag ConfigurationConfig)
  registry : List (Flag RegistryConfig)
  Parse : List String → CmdParse

/-- Go `Command` of `cli.go`; the two configurations are the values the pointers point to. -/
structure Command where
  Configuration : ConfigurationConfig
  Registry : RegistryConfig
  cmd : ffcliCommand

/-- Go `New` of `cli.go`; `parse` is what the `Parse` of the `ffcli` command built will do. -/
def New (lib : Lib) (parse : List String → CmdParse) : Command :=
  let configurationConfig : ConfigurationConfig := {}
  let registryConfig : RegistryConfig := {}
  let configurationCommand := newConfigurationCommand lib configurationConfig
  let registryCommand := newRegistryCommand lib registryConfig
  { Configuration := configurationCommand.config
    Registry := registryCommand.config
    cmd := ⟨configurationCommand.formal, registryCommand.formal, parse⟩ }

/-- The effect of one `Set` call of `c.cmd.Parse` on the configurations of `c`; a name that
is no flag of the flag set has no variable to act on. -/
def Command.applySet (c : Command) (call : SetCall) : Command :=
  if call.registry then
    match FlagSet.lookup c.cmd.registry call.name with
    | some flag => { c with Registry := (flag.Set call.value c.Registry).1 }
    | none => c
  else
    match FlagSet.lookup c.cmd.configuration call.name with
    | some flag => { c with Configuration := (flag.Set call.value c.Configuration).1 }
    | none => c

/-- The command as `c.cmd.Parse(args)` leaves it: the `Set` calls it makes have acted, in
order, on the variables their flags are bound to. -/
def Command.afterSets (c : Command) (args : List String) : Command :=
  (c.cmd.Parse args).sets.foldl Command.applySet c

/-- Go `(*Command).Parse` of `cli.go`: the command afterwards and the error returned. -/
def Command.Parse (c : Command) (args : List String) : Command × Option GoError :=
  let c' := c.afterSets args
  match (c.cmd.Parse args).err with
  | some err => (c', some err)
  | none =>
    -- update non-standard type fields
    ({ c' with
        Configuration := { c'.Configuration with
          Registries := c'.Configuration.registriesValue.URLs
          MirrorRegistries := c'.Configuration.mirrorRegistriesValue.URLs }
        Registry := { c'.Registry with
          BlobSpeed := some ByteratePtr.blobSpeedValueAddr
          Registries := c'.Registry.registriesValue.URLs } }, none)

/-! ## `net.SplitHostPort`, for the concrete environments -/

/-- Go `(*net.AddrError).Error` for the address `addr` and the reason `why`. -/
def addrError (addr why : String) : GoError :=
  GoError.msg (if addr = "" then why else "address " ++ addr ++ ": " ++ why)

/-- The end of Go `net.SplitHostPort`: no `[` from position `j` on and no `]` from position
`k` on, and the port is what follows the last colon, at position `i`. -/
def splitHostPortEnd (hostport : String) (host : List Char) (i j k : Nat) :
    Except GoError (String × String) :=
  if '[' ∈ hostport.toList.drop j then
    .error (addrError hostport "unexpected \x27[\x27 in address")
  else if ']' ∈ hostport.toList.drop k then
    .error (addrError hostport "unexpected \x27]\x27 in address")
  else .ok (String.mk host, String.mk (hostport.toList.drop (i + 1)))

/-- Go `net.SplitHostPort`: the host and the port of `host:port` or `[host]:port`. -/
def SplitHostPort (hostport : String) : Except GoError (String × String) :=
  -- The port starts after the last colon.
  match (hostport.toList.reverse.findIdx? fun c => c == ':').map
      fun r => hostport.toList.length - 1 - r with
  | none => .error (addrError hostport "missing port in address")
  | some i =>
    if hostport.toList.head? = some '[' then
      -- Expect the first closing bracket just before the last colon.
      match hostport.toList.findIdx? fun c => c == ']' with
      | none => .error (addrError hostport "missing \x27]\x27 in address")
      | some close =>
        if close + 1 = hostport.toList.length then
          .error (addrError hostport "missing port in address")
        else if close + 1 = i then
          splitHostPortEnd hostport ((hostport.toList.take close).drop 1) i 1 (close + 1)
        else if hostport.toList.get? (close + 1) = some ':' then
          .error (addrError hostport "too many colons in address")
        else .error (addrError hostport "missing port in address")
    else if ':' ∈ hostport.toList.take i then
      .error (addrError hostport "too many colons in address")
    else splitHostPortEnd hostport (hostport.toList.take i) i 0 0

/-! ## Concrete inputs and proof predicates -/

/-- An environment in which the content source, the clientset and the router are obtained,
`net.SplitHostPort` answers as the standard library does, and every worker returns nil, in
the order in which the workers were started. -/
def quietEnv : Env where
  NewContainerd := fun _ _ _ _ => none
  Verify := fun _ => none
  SplitHostPort := SplitHostPort
  GetKubernetesClientset := fun path => .ok ⟨path⟩
  NewP2PRouter := fun _ _ _ => none
  returned := fun _ => none
  finished := fun i => i

/-- The registry configuration with the HTTP bootstrapper chosen, the registry served on
":5000" and all else zero. -/
def httpConfig : RegistryConfig := { BootstrapKind := "http", RegistryAddr := ":5000" }

/-- A registry configuration with the HTTP bootstrapper, the registry served on ":5000" and
the resolver settings filled in: latest tags resolved, 3 retries, a timeout of 5s, local
address "10.0.0.1:5000". -/
def resolverConfig : RegistryConfig :=
  { BootstrapKind := "http"
    RegistryAddr := ":5000"
    ResolveLatestTag := true
    MirrorResolveRetries := 3
    MirrorResolveTimeout := 5000000000
    LocalAddr := "10.0.0.1:5000" }

/-- An environment in which everything succeeds except `router.Run`, which returns an error
after the other workers have returned. -/
def routerFailsEnv : Env :=
  { quietEnv with
    returned := fun w =>
      match w with
      | .routerRun _ => some (GoError.msg "transport failure")
      | .registryListenAndServe _ => some GoError.ErrServerClosed
      | .metricsListenAndServe _ => some GoError.ErrServerClosed
      | _ => none
    finished := fun i => 10 - i }

/-- A stand-in for the text parsers of the standard library: every string is the URL with
that path, so the empty string is the empty URL, and no string is a duration. -/
def exampleLib : Lib where
  urlParse := fun s => .ok { Path := s }
  urlString := fun u => u.Path
  ParseDuration := fun _ => .error (GoError.msg "time: invalid duration")

/-- What the `ffcli` command does on the command line
`registry -boostrap-kind=http -registry-addr=:5000`, which has no `blob-speed` flag, when no
environment variable is set: it sets these two flags of the registry subcommand and
returns nil. -/
def registryParse : List String → CmdParse :=
  fun _ => ⟨[⟨true, "boostrap-kind", "http"⟩, ⟨true, "registry-addr", ":5000"⟩], none⟩

/-- What the `ffcli` command does on the command line `registry -registries=a,b -blob-speed=7`
when no environment variable is set: it sets these two flags of the registry subcommand and
returns nil. -/
def settingParse : List String → CmdParse :=
  fun _ => ⟨[⟨true, "registries", "a,b"⟩, ⟨true, "blob-speed", "7"⟩], none⟩

/-- What the `ffcli` command does on the command line
`configuration -registries=a -mirror-registries=m,n` when no environment variable is set: it
sets these two flags of the configuration subcommand and returns nil. -/
def configurationParse : List String → CmdParse :=
  fun _ => ⟨[⟨false, "registries", "a"⟩, ⟨false, "mirror-registries", "m,n"⟩], none⟩

/-- What the `ffcli` command does on the command line `registry -registries=a,b -blob-speed=7`
when the environment variable `MIRROR_RESOLVE_RETRIES` is set to `x`: it sets the two flags of
the command line, fails to set the flag of the environment variable, and returns the error. -/
def failingParse : List String → CmdParse :=
  fun _ => ⟨[⟨true, "registries", "a,b"⟩, ⟨true, "blob-speed", "7"⟩,
      ⟨true, "mirror-resolve-retries", "x"⟩],
    some (GoError.wrap "error parsing env vars: parse error" (GoError.msg "parse error"))⟩

/-- A URL that is only a path. -/
def pathURL (path : String) : URL := { Path := path }

/-- A registry configuration with the HTTP bootstrapper, the registry served on ":5000" and a
blob speed of 1000 set by the caller through a pointer of its own. -/
def cappedConfig : RegistryConfig :=
  { BootstrapKind := "http"
    RegistryAddr := ":5000"
    BlobSpeed := some (ByteratePtr.other 1000) }

/-- The calls a run of `registryExec` has made when it stops before the router exists: the
content source, and if that is verified the metrics server, and if the bootstrapper is
obtained the router constructor. -/
def earlyTrace (config : RegistryConfig) (trace : List Call) : Prop :=
  trace = [Call.NewContainerd config.ContainerdSock config.ContainerdNamespace
      config.ContainerdRegistryConfigPath config.Registries] ∨
  trace = [Call.NewContainerd config.ContainerdSock config.ContainerdNamespace
      config.ContainerdRegistryConfigPath config.Registries,
    Call.Verify ⟨config.ContainerdSock, config.ContainerdNamespace,
      config.ContainerdRegistryConfigPath, config.Registries⟩] ∨
  trace = [Call.NewContainerd config.ContainerdSock config.ContainerdNamespace
      config.ContainerdRegistryConfigPath config.Registries,
    Call.Verify ⟨config.ContainerdSock, config.ContainerdNamespace,
      config.ContainerdRegistryConfigPath, config.Registries⟩,
    Call.metricsRegister, Call.Go (Worker.metricsListenAndServe config.MetricsAddr),
    Call.Go (Worker.metricsShutdown config.MetricsAddr)] ∨
  ∃ bootstrapper registryPort,
    trace = [Call.NewContainerd config.ContainerdSock config.ContainerdNamespace
        config.ContainerdRegistryConfigPath config.Registries,
      Call.Verify ⟨config.ContainerdSock, config.ContainerdNamespace,
        config.ContainerdRegistryConfigPath, config.Registries⟩,
      Call.metricsRegister, Call.Go (Worker.metricsListenAndServe config.MetricsAddr),
      Call.Go (Worker.metricsShutdown config.MetricsAddr),
      Call.NewP2PRouter config.RouterAddr bootstrapper registryPort]

/-- Every flag of the flag set has a `Set` with the property `P`. -/
def FlagSet.AllSet {σ : Type} (P : (String → σ → σ × Option GoError) → Prop) (fs : FlagSet σ) :
    Prop :=
  ∀ flag ∈ fs.formal, P flag.Set

/-- The flag set has `flag` as its first flag. -/
def FlagSet.HeadIs {σ : Type} (flag : Flag σ) (fs : FlagSet σ) : Prop :=
  ∃ rest, fs.formal = flag :: rest

/-! # Theorems -/

/-! ## `getBootstrapper` -/

/-- C2: `getBootstrapper` offers exactly two strategies.  Kind "http" returns the HTTP
bootstrapper of the configured address and peer with a nil error; kind "kubernetes" returns
the Kubernetes bootstrapper of the clientset with a nil error, or a nil bootstrapper with the
error of `GetKubernetesClientset`; every other kind returns a nil bootstrapper with the error
"unknown bootstrap kind " followed by the kind. -/
theorem getBootstrapper_two_strategies (GetKubernetesClientset : String → Except GoError Clientset)
    (config : BootstrapConfig) :
    (config.BootstrapKind = "http" →
      getBootstrapper GetKubernetesClientset config =
        (some (Bootstrapper.NewHTTPBootstrapper config.HTTPBootstrapAddr config.HTTPBootstrapPeer),
          none)) ∧
    (config.BootstrapKind = "kubernetes" →
      (∀ cs, GetKubernetesClientset config.KubeconfigPath = .ok cs →
        getBootstrapper GetKubernetesClientset config =
          (some (Bootstrapper.NewKubernetesBootstrapper cs config.LeaderElectionNamespace
            config.LeaderElectionName), none)) ∧
      (∀ err, GetKubernetesClientset config.KubeconfigPath = .error err →
        getBootstrapper GetKubernetesClientset config = (none, some err))) ∧
    (config.BootstrapKind ≠ "http" → config.BootstrapKind ≠ "kubernetes" →
      getBootstrapper GetKubernetesClientset config =
        (none, some (GoError.msg ("unknown bootstrap kind " ++ config.BootstrapKind)))) := by
  refine ⟨fun h => ?_, fun h => ⟨fun cs hcs => ?_, fun err herr => ?_⟩, fun h1 h2 => ?_⟩
  · simp [getBootstrapper, h]
  · simp [getBootstrapper, h, hcs]
  · simp [getBootstrapper, h, herr]
  · simp [getBootstrapper, h1, h2]

/-- The three cases of C2 at concrete configurations: kind "http", kind "kubernetes" with a
clientset and with a clientset error, and the empty default kind. -/
theorem getBootstrapper_two_strategies_witness :
    getBootstrapper (fun path => .ok ⟨path⟩)
        { BootstrapKind := "http", HTTPBootstrapAddr := ":5001", HTTPBootstrapPeer := "peer:5001" } =
      (some (Bootstrapper.NewHTTPBootstrapper ":5001" "peer:5001"), none) ∧
    getBootstrapper (fun path => .ok ⟨path⟩)
        { BootstrapKind := "kubernetes", KubeconfigPath := "kc", LeaderElectionName := "n",
          LeaderElectionNamespace := "ns" } =
      (some (Bootstrapper.NewKubernetesBootstrapper ⟨"kc"⟩ "ns" "n"), none) ∧
    getBootstrapper (fun _ => .error (GoError.msg "no kubeconfig"))
        { BootstrapKind := "kubernetes" } = (none, some (GoError.msg "no kubeconfig")) ∧
    getBootstrapper (fun path => .ok ⟨path⟩) {} =
      (none, some (GoError.msg "unknown bootstrap kind ")) :=
  ⟨(getBootstrapper_two_strategies _ _).1 rfl,
    ((getBootstrapper_two_strategies _ _).2.1 rfl).1 _ rfl,
    ((getBootstrapper_two_strategies _ _).2.1 rfl).2 _ rfl,
    (getBootstrapper_two_strategies _ _).2.2 (by decide) (by decide)⟩

/-! ## `registryExec` -/

/-- `Group.Wait` returns nil exactly when every function of the group returned nil. -/
theorem Group.Wait_eq_none_iff (finished : Nat → Nat) (results : List (Option GoError)) :
    Group.Wait finished results = none ↔ ∀ r ∈ results, r = none := by
  unfold Group.Wait
  rw [List.findSome?_eq_none_iff]
  constructor
  · intro h r hr
    rw [← List.enum_map_snd results, List.mem_map] at hr
    obtain ⟨x, hx, rfl⟩ := hr
    exact h x ((List.perm_insertionSort _ _).mem_iff.mpr hx)
  · intro h x hx
    have hx' := (List.perm_insertionSort _ _).mem_iff.mp hx
    exact h x.2 (by rw [← List.enum_map_snd results]; exact List.mem_map_of_mem _ hx')

/-- The error `Group.Wait` returns is the error one of the functions returned. -/
theorem Group.Wait_mem (finished : Nat → Nat) (results : List (Option GoError)) (err : GoError)
    (h : Group.Wait finished results = some err) : some err ∈ results := by
  unfold Group.Wait at h
  obtain ⟨x, hx, hsnd⟩ := List.exists_of_findSome?_eq_some h
  have hx' := (List.perm_insertionSort _ _).mem_iff.mp hx
  rw [← List.enum_map_snd results, ← hsnd]
  exact List.mem_map_of_mem _ hx'

/-- The run of `registryExec` when the content source, the registry address, the bootstrapper
and the router are all obtained: the seven workers are started and awaited. -/
theorem registryExec_of_setup (env : Env) (config : RegistryConfig) (host registryPort : String)
    (bootstrapper : Option Bootstrapper)
    (hNew : env.NewContainerd config.ContainerdSock config.ContainerdNamespace
      config.ContainerdRegistryConfigPath config.Registries = none)
    (hVerify : env.Verify ⟨config.ContainerdSock, config.ContainerdNamespace,
      config.ContainerdRegistryConfigPath, config.Registries⟩ = none)
    (hSplit : env.SplitHostPort config.RegistryAddr = .ok (host, registryPort))
    (hBoot : getBootstrapper env.GetKubernetesClientset config.toBootstrapConfig =
      (bootstrapper, none))
    (hRouter : env.NewP2PRouter config.RouterAddr bootstrapper registryPort = none) :
    registryExec env config =
      ⟨Group.Wait env.finished ([Worker.metricsListenAndServe config.MetricsAddr,
          Worker.metricsShutdown config.MetricsAddr,
          Worker.routerRun ⟨config.RouterAddr, bootstrapper, registryPort⟩,
          Worker.routerClose ⟨config.RouterAddr, bootstrapper, registryPort⟩,
          Worker.stateTrack ⟨config.ContainerdSock, config.ContainerdNamespace,
            config.ContainerdRegistryConfigPath, config.Registries⟩
            ⟨config.RouterAddr, bootstrapper, registryPort⟩ config.ResolveLatestTag,
          Worker.registryListenAndServe config.RegistryAddr,
          Worker.registryShutdown config.RegistryAddr].map (Worker.run env)),
        [Call.NewContainerd config.ContainerdSock config.ContainerdNamespace
            config.ContainerdRegistryConfigPath config.Registries,
          Call.Verify ⟨config.ContainerdSock, config.ContainerdNamespace,
            config.ContainerdRegistryConfigPath, config.Registries⟩,
          Call.metricsRegister, Call.Go (Worker.metricsListenAndServe config.MetricsAddr),
          Call.Go (Worker.metricsShutdown config.MetricsAddr),
          Call.NewP2PRouter config.RouterAddr bootstrapper registryPort,
          Call.Go (Worker.routerRun ⟨config.RouterAddr, bootstrapper, registryPort⟩),
          Call.Go (Worker.routerClose ⟨config.RouterAddr, bootstrapper, registryPort⟩),
          Call.Go (Worker.stateTrack ⟨config.ContainerdSock, config.ContainerdNamespace,
            config.ContainerdRegistryConfigPath, config.Registries⟩
            ⟨config.RouterAddr, bootstrapper, registryPort⟩ config.ResolveLatestTag),
          Call.NewRegistry ⟨config.ContainerdSock, config.ContainerdNamespace,
            config.ContainerdRegistryConfigPath, config.Registries⟩
            ⟨config.RouterAddr, bootstrapper, registryPort⟩
            ([RegistryOption.WithResolveLatestTag config.ResolveLatestTag,
              RegistryOption.WithResolveRetries config.MirrorResolveRetries,
              RegistryOption.WithResolveTimeout config.MirrorResolveTimeout,
              RegistryOption.WithLocalAddress config.LocalAddr] ++
              match config.BlobSpeed with
              | some p => [RegistryOption.WithBlobSpeed (config.deref p)]
              | none => []),
          Call.Server config.RegistryAddr,
          Call.Go (Worker.registryListenAndServe config.RegistryAddr),
          Call.Go (Worker.registryShutdown config.RegistryAddr),
          Call.Info config.RegistryAddr config.RouterAddr, Call.Wait]⟩ := by
  unfold registryExec
  simp only [hNew, hVerify, hSplit, hBoot, hRouter]
  cases config.BlobSpeed <;> simp

/-- Every run of `registryExec` either stops before the router exists, with a non-nil error
and a trace without `NewRegistry`, `Wait` or any worker but the two of the metrics server, or
is the run of `registryExec_of_setup`. -/
theorem registryExec_cases (env : Env) (config : RegistryConfig) :
    (∃ err trace, registryExec env config = ⟨some err, trace⟩ ∧ earlyTrace config trace) ∨
    (∃ host registryPort bootstrapper,
      env.NewContainerd config.ContainerdSock config.ContainerdNamespace
        config.ContainerdRegistryConfigPath config.Registries = none ∧
      env.Verify ⟨config.ContainerdSock, config.ContainerdNamespace,
        config.ContainerdRegistryConfigPath, config.Registries⟩ = none ∧
      env.SplitHostPort config.RegistryAddr = .ok (host, registryPort) ∧
      getBootstrapper env.GetKubernetesClientset config.toBootstrapConfig =
        (bootstrapper, none) ∧
      env.NewP2PRouter config.RouterAddr bootstrapper registryPort = none) := by
  cases hNew : env.NewContainerd config.ContainerdSock config.ContainerdNamespace
      config.ContainerdRegistryConfigPath config.Registries with
  | some err =>
    left
    exact ⟨err, _, by simp [registryExec, hNew], Or.inl rfl⟩
  | none =>
    cases hVerify : env.Verify ⟨config.ContainerdSock, config.ContainerdNamespace,
        config.ContainerdRegistryConfigPath, config.Registries⟩ with
    | some err =>
      left
      exact ⟨err, _, by simp [registryExec, hNew, hVerify], Or.inr (Or.inl rfl)⟩
    | none =>
      cases hSplit : env.SplitHostPort config.RegistryAddr with
      | error err =>
        left
        exact ⟨err, _, by simp [registryExec, hNew, hVerify, hSplit],
          Or.inr (Or.inr (Or.inl rfl))⟩
      | ok hp =>
        obtain ⟨host, registryPort⟩ := hp
        rcases hBoot : getBootstrapper env.GetKubernetesClientset config.toBootstrapConfig with
          ⟨bootstrapper, _ | err⟩
        · cases hRouter : env.NewP2PRouter config.RouterAddr bootstrapper registryPort with
          | some err =>
            left
            exact ⟨err, _, by simp [registryExec, hNew, hVerify, hSplit, hBoot, hRouter],
              Or.inr (Or.inr (Or.inr ⟨bootstrapper, registryPort, rfl⟩))⟩
          | none => right; exact ⟨host, registryPort, bootstrapper, rfl, rfl, rfl, rfl, hRouter⟩
        · left
          exact ⟨err, _, by simp [registryExec, hNew, hVerify, hSplit, hBoot],
            Or.inr (Or.inr (Or.inl rfl))⟩

/-- A run that stops early has called neither `NewRegistry` nor `Wait`, and has started no
worker but the two of the metrics server. -/
theorem earlyTrace_calls (config : RegistryConfig) (trace : List Call)
    (h : earlyTrace config trace) :
    (∀ ociClient router opts, Call.NewRegistry ociClient router opts ∉ trace) ∧
    Call.Wait ∉ trace ∧
    ∀ w, Call.Go w ∈ trace →
      w = Worker.metricsListenAndServe config.MetricsAddr ∨
      w = Worker.metricsShutdown config.MetricsAddr := by
  rcases h with h | h | h | ⟨bootstrapper, registryPort, h⟩ <;> subst h <;> simp

/-- Whenever `registryExec` calls `registry.NewRegistry`, the options passed are the four
resolver options of the configuration, then `WithBlobSpeed` if `BlobSpeed` is not nil, and
`state.Track` has been started with the same client, router and `ResolveLatestTag`. -/
theorem registryExec_NewRegistry_inv (env : Env) (config : RegistryConfig)
    (ociClient : OciClient) (router : Router) (opts : List RegistryOption)
    (h : Call.NewRegistry ociClient router opts ∈ (registryExec env config).trace) :
    opts = [RegistryOption.WithResolveLatestTag config.ResolveLatestTag,
        RegistryOption.WithResolveRetries config.MirrorResolveRetries,
        RegistryOption.WithResolveTimeout config.MirrorResolveTimeout,
        RegistryOption.WithLocalAddress config.LocalAddr] ++
      (match config.BlobSpeed with
        | some p => [RegistryOption.WithBlobSpeed (config.deref p)]
        | none => []) ∧
    Call.Go (Worker.stateTrack ociClient router config.ResolveLatestTag) ∈
      (registryExec env config).trace ∧
    ∀ ociClient' router' resolveLatestTag,
      Call.Go (Worker.stateTrack ociClient' router' resolveLatestTag) ∈
        (registryExec env config).trace → resolveLatestTag = config.ResolveLatestTag := by
  rcases registryExec_cases env config with ⟨err, trace, he, hearly⟩ | ⟨host, registryPort,
    bootstrapper, hNew, hVerify, hSplit, hBoot, hRouter⟩
  · rw [he] at h
    exact absurd h ((earlyTrace_calls config trace hearly).1 _ _ _)
  · rw [registryExec_of_setup env config host registryPort bootstrapper hNew hVerify hSplit
      hBoot hRouter] at h ⊢
    simp only [List.mem_cons, List.mem_singleton, reduceCtorEq, Call.NewRegistry.injEq,
      false_or, or_false, List.not_mem_nil] at h
    obtain ⟨rfl, rfl, rfl⟩ := h
    refine ⟨rfl, by simp, ?_⟩
    intro ociClient' router' resolveLatestTag h'
    simp only [List.mem_cons, List.mem_singleton, reduceCtorEq, Call.Go.injEq,
      Worker.stateTrack.injEq, false_or, or_false, List.not_mem_nil] at h'
    exact h'.2.2

/-- C3: an unreachable local content source is fatal at startup.  If `oci.NewContainerd`
returns an error, or it succeeds and `ociClient.Verify` returns an error, then `registryExec`
returns that same error, and the only calls it has made are these: no worker was started, the
metrics were not registered, and neither the router nor the registry was made. -/
theorem registryExec_content_source_fatal (env : Env) (config : RegistryConfig) (err : GoError)
    (h : env.NewContainerd config.ContainerdSock config.ContainerdNamespace
          config.ContainerdRegistryConfigPath config.Registries = some err ∨
        (env.NewContainerd config.ContainerdSock config.ContainerdNamespace
          config.ContainerdRegistryConfigPath config.Registries = none ∧
         env.Verify ⟨config.ContainerdSock, config.ContainerdNamespace,
          config.ContainerdRegistryConfigPath, config.Registries⟩ = some err)) :
    (registryExec env config).err = some err ∧
    startedWorkers (registryExec env config).trace = [] ∧
    ∀ call ∈ (registryExec env config).trace,
      call = Call.NewContainerd config.ContainerdSock config.ContainerdNamespace
        config.ContainerdRegistryConfigPath config.Registries ∨
      call = Call.Verify ⟨config.ContainerdSock, config.ContainerdNamespace,
        config.ContainerdRegistryConfigPath, config.Registries⟩ := by
  rcases h with h | ⟨h1, h2⟩
  · simp [registryExec, h, startedWorkers]
  · simp [registryExec, h1, h2, startedWorkers]

/-- C3 at two concrete environments: one where `oci.NewContainerd` fails and one where
`Verify` fails, everything else being ready to succeed. -/
theorem registryExec_content_source_fatal_witness :
    ((registryExec { quietEnv with NewContainerd := fun _ _ _ _ => some (GoError.msg "no socket") }
        httpConfig).err = some (GoError.msg "no socket") ∧
      startedWorkers (registryExec
        { quietEnv with NewContainerd := fun _ _ _ _ => some (GoError.msg "no socket") }
        httpConfig).trace = []) ∧
    ((registryExec { quietEnv with Verify := fun _ => some (GoError.msg "not serving") }
        httpConfig).err = some (GoError.msg "not serving") ∧
      startedWorkers (registryExec
        { quietEnv with Verify := fun _ => some (GoError.msg "not serving") }
        httpConfig).trace = []) :=
  have h1 := registryExec_content_source_fatal
    { quietEnv with NewContainerd := fun _ _ _ _ => some (GoError.msg "no socket") }
    httpConfig (GoError.msg "no socket") (Or.inl rfl)
  have h2 := registryExec_content_source_fatal
    { quietEnv with Verify := fun _ => some (GoError.msg "not serving") }
    httpConfig (GoError.msg "not serving") (Or.inr ⟨rfl, rfl⟩)
  ⟨⟨h1.1, h1.2.1⟩, ⟨h2.1, h2.2.1⟩⟩

/-- C4 fails as stated: the four resolver options are not always all the options.  On a
configuration with the HTTP bootstrapper and the registry address ":5000", which
`net.SplitHostPort` splits into an empty host and the port "5000", and whose `BlobSpeed` points
to 1000, `registryExec` gets to `registry.NewRegistry` and passes five options, the four of the
claim and then `WithBlobSpeed(1000)`. -/
theorem registryExec_resolver_options_counterexample :
    Call.NewRegistry ⟨"", "", "", []⟩ ⟨"", some (Bootstrapper.NewHTTPBootstrapper "" ""), "5000"⟩
        [RegistryOption.WithResolveLatestTag cappedConfig.ResolveLatestTag,
          RegistryOption.WithResolveRetries cappedConfig.MirrorResolveRetries,
          RegistryOption.WithResolveTimeout cappedConfig.MirrorResolveTimeout,
          RegistryOption.WithLocalAddress cappedConfig.LocalAddr,
          RegistryOption.WithBlobSpeed 1000] ∈
      (registryExec quietEnv cappedConfig).trace ∧
    [RegistryOption.WithResolveLatestTag cappedConfig.ResolveLatestTag,
        RegistryOption.WithResolveRetries cappedConfig.MirrorResolveRetries,
        RegistryOption.WithResolveTimeout cappedConfig.MirrorResolveTimeout,
        RegistryOption.WithLocalAddress cappedConfig.LocalAddr,
        RegistryOption.WithBlobSpeed 1000] ≠
      [RegistryOption.WithResolveLatestTag cappedConfig.ResolveLatestTag,
        RegistryOption.WithResolveRetries cappedConfig.MirrorResolveRetries,
        RegistryOption.WithResolveTimeout cappedConfig.MirrorResolveTimeout,
        RegistryOption.WithLocalAddress cappedConfig.LocalAddr] := by
  constructor <;> decide

/-- C4, amended: the resolver options are populated from the configuration unchanged.
Whenever `registryExec` calls `registry.NewRegistry`, the options it passes are, in order,
`WithResolveLatestTag(config.ResolveLatestTag)`, `WithResolveRetries(config.MirrorResolveRetries)`,
`WithResolveTimeout(config.MirrorResolveTimeout)` and `WithLocalAddress(config.LocalAddr)`,
followed by `WithBlobSpeed(*config.BlobSpeed)` when `config.BlobSpeed` is not nil and by
nothing else; and `state.Track` is started with the same client and router and with the same
`config.ResolveLatestTag` as the registry gets, and with no other value. -/
theorem registryExec_registry_options (env : Env) (config : RegistryConfig)
    (ociClient : OciClient) (router : Router) (opts : List RegistryOption)
    (h : Call.NewRegistry ociClient router opts ∈ (registryExec env config).trace) :
    opts =
      [RegistryOption.WithResolveLatestTag config.ResolveLatestTag,
        RegistryOption.WithResolveRetries config.MirrorResolveRetries,
        RegistryOption.WithResolveTimeout config.MirrorResolveTimeout,
        RegistryOption.WithLocalAddress config.LocalAddr] ++
      (match config.BlobSpeed with
        | some p => [RegistryOption.WithBlobSpeed (config.deref p)]
        | none => []) ∧
    Call.Go (Worker.stateTrack ociClient router config.ResolveLatestTag) ∈
      (registryExec env config).trace ∧
    ∀ ociClient' router' resolveLatestTag,
      Call.Go (Worker.stateTrack ociClient' router' resolveLatestTag) ∈
        (registryExec env config).trace → resolveLatestTag = config.ResolveLatestTag :=
  registryExec_NewRegistry_inv env config ociClient router opts h

/-- C4, amended, at two concrete inputs in the quiet environment, both with the registry
address ":5000": a configuration with retries 3, timeout 5s, local address "10.0.0.1:5000" and a nil blob speed gets exactly the
four options, and `state.Track` is started with the same `ResolveLatestTag`; the configuration
with a blob speed of 1000 gets `WithBlobSpeed(1000)` as the fifth. -/
theorem registryExec_registry_options_witness :
    (Call.NewRegistry ⟨"", "", "", []⟩ ⟨"", some (Bootstrapper.NewHTTPBootstrapper "" ""), "5000"⟩
        [RegistryOption.WithResolveLatestTag true, RegistryOption.WithResolveRetries 3,
          RegistryOption.WithResolveTimeout 5000000000,
          RegistryOption.WithLocalAddress "10.0.0.1:5000"] ∈
      (registryExec quietEnv resolverConfig).trace ∧
    Call.Go (Worker.stateTrack ⟨"", "", "", []⟩
        ⟨"", some (Bootstrapper.NewHTTPBootstrapper "" ""), "5000"⟩ true) ∈
      (registryExec quietEnv resolverConfig).trace) ∧
    ∀ opts, Call.NewRegistry ⟨"", "", "", []⟩
        ⟨"", some (Bootstrapper.NewHTTPBootstrapper "" ""), "5000"⟩ opts ∈
      (registryExec quietEnv cappedConfig).trace →
      opts = [RegistryOption.WithResolveLatestTag false, RegistryOption.WithResolveRetries 0,
        RegistryOption.WithResolveTimeout 0, RegistryOption.WithLocalAddress "",
        RegistryOption.WithBlobSpeed 1000] :=
  ⟨⟨by decide, (registryExec_registry_options quietEnv resolverConfig
      ⟨"", "", "", []⟩ ⟨"", some (Bootstrapper.NewHTTPBootstrapper "" ""), "5000"⟩
      [RegistryOption.WithResolveLatestTag true, RegistryOption.WithResolveRetries 3,
        RegistryOption.WithResolveTimeout 5000000000,
        RegistryOption.WithLocalAddress "10.0.0.1:5000"] (by decide)).2.1⟩,
    fun opts h => (registryExec_registry_options quietEnv cappedConfig _ _ opts h).1⟩

/-- A worker that is started and whose function returns a non-nil error makes `registryExec`
return a non-nil error. -/
theorem registryExec_err_of_worker (env : Env) (config : RegistryConfig) (w : Worker)
    (err : GoError) (hw : Call.Go w ∈ (registryExec env config).trace)
    (hrun : Worker.run env w = some err) : (registryExec env config).err ≠ none := by
  rcases registryExec_cases env config with ⟨e, trace, he, -⟩ | ⟨host, registryPort,
    bootstrapper, hNew, hVerify, hSplit, hBoot, hRouter⟩
  · simp [he]
  · rw [registryExec_of_setup env config host registryPort bootstrapper hNew hVerify hSplit
      hBoot hRouter] at hw ⊢
    intro hnone
    have hall := (Group.Wait_eq_none_iff _ _).mp hnone (Worker.run env w)
    rw [hrun] at hall
    refine Option.some_ne_none err (hall ?_)
    rw [← hrun]
    apply List.mem_map_of_mem
    simp only [List.mem_cons, List.mem_singleton, reduceCtorEq, Call.Go.injEq,
      false_or, or_false, List.not_mem_nil] at hw
    simp only [List.mem_cons, List.mem_singleton, List.not_mem_nil, or_false]
    exact hw

/-- The error `registryExec` returns after `g.Wait()` is the error that the function of one
of the started workers returned. -/
theorem registryExec_err_from_worker (env : Env) (config : RegistryConfig) (err : GoError)
    (hwait : Call.Wait ∈ (registryExec env config).trace)
    (herr : (registryExec env config).err = some err) :
    ∃ w ∈ startedWorkers (registryExec env config).trace, Worker.run env w = some err := by
  rcases registryExec_cases env config with ⟨e, trace, he, hearly⟩ | ⟨host, registryPort,
    bootstrapper, hNew, hVerify, hSplit, hBoot, hRouter⟩
  · rw [he] at hwait
    exact absurd hwait (earlyTrace_calls config trace hearly).2.1
  · rw [registryExec_of_setup env config host registryPort bootstrapper hNew hVerify hSplit
      hBoot hRouter] at herr ⊢
    obtain ⟨w, hw, hrun⟩ := List.mem_map.mp (Group.Wait_mem _ _ err herr)
    exact ⟨w, by simpa [startedWorkers] using hw, hrun⟩

/-- C7: a fatal failure of a background loop propagates through the supervising group.
For every worker `registryExec` has started, if its call (`router.Run`, `router.Close`,
`state.Track`, `ListenAndServe` or `Shutdown` of either HTTP server) returns a non-nil error,
which for `ListenAndServe` is not `http.ErrServerClosed` under `errors.Is`, then `registryExec`
returns a non-nil error.  And `registryExec` returns nil only if it started all seven workers,
waited for them, and the function of every one of them returned nil. -/
theorem registryExec_worker_failure_propagates (env : Env) (config : RegistryConfig) :
    (∀ w err, Call.Go w ∈ (registryExec env config).trace → env.returned w = some err →
      (w.isListenAndServe = true → errorsIs err GoError.ErrServerClosed = false) →
      (registryExec env config).err ≠ none) ∧
    ((registryExec env config).err = none →
      (startedWorkers (registryExec env config).trace).length = 7 ∧
      Call.Wait ∈ (registryExec env config).trace ∧
      ∀ w ∈ startedWorkers (registryExec env config).trace, Worker.run env w = none) := by
  constructor
  · intro w err hw hret hserve
    apply registryExec_err_of_worker env config w err hw
    cases w <;> simp_all [Worker.run, Worker.isListenAndServe]
  · intro hnone
    rcases registryExec_cases env config with ⟨e, trace, he, -⟩ | ⟨host, registryPort,
      bootstrapper, hNew, hVerify, hSplit, hBoot, hRouter⟩
    · simp [he] at hnone
    · rw [registryExec_of_setup env config host registryPort bootstrapper hNew hVerify hSplit
        hBoot hRouter] at hnone ⊢
      have hall := (Group.Wait_eq_none_iff _ _).mp hnone
      refine ⟨by simp [startedWorkers], by simp, ?_⟩
      intro w hw
      apply hall
      apply List.mem_map_of_mem
      simpa [startedWorkers] using hw

/-- C7 at concrete inputs: with `router.Run` failing, `registryExec` returns a non-nil error;
in the quiet environment, where it returns nil, the seven workers all returned nil. -/
theorem registryExec_worker_failure_propagates_witness :
    (registryExec routerFailsEnv httpConfig).err ≠ none ∧
    ((startedWorkers (registryExec quietEnv httpConfig).trace).length = 7 ∧
      Call.Wait ∈ (registryExec quietEnv httpConfig).trace ∧
      ∀ w ∈ startedWorkers (registryExec quietEnv httpConfig).trace,
        Worker.run quietEnv w = none) :=
  ⟨(registryExec_worker_failure_propagates routerFailsEnv httpConfig).1
      (Worker.routerRun ⟨"", some (Bootstrapper.NewHTTPBootstrapper "" ""), "5000"⟩)
      (GoError.msg "transport failure") (by decide) rfl (by decide),
    (registryExec_worker_failure_propagates quietEnv httpConfig).2 (by decide)⟩

/-! ## `urlsValue.Set` -/

/-- `strings.Split` never returns an empty list. -/
theorem splitChars_ne_nil (sep : Char) (l : List Char) : splitChars sep l ≠ [] := by
  induction l with
  | nil => simp [splitChars]
  | cons c cs ih =>
    unfold splitChars
    split
    · simp
    · split <;> simp

/-- `strings.Split` returns one string more than there are separators. -/
theorem splitChars_length (sep : Char) (l : List Char) :
    (splitChars sep l).length = l.count sep + 1 := by
  induction l with
  | nil => simp [splitChars]
  | cons c cs ih =>
    unfold splitChars
    by_cases hc : c = sep
    · subst hc
      simp [ih]
    · have hne : (c == sep) = false := by simpa using hc
      rw [if_neg hc, List.count_cons, hne]
      cases hsplit : splitChars sep cs with
      | nil => exact absurd hsplit (splitChars_ne_nil sep cs)
      | cons str strs =>
        rw [hsplit] at ih
        simpa using ih

/-- The loop of `Set` over strings that all parse appends their URLs, in order. -/
theorem urlsValue_SetLoop_ok (lib : Lib) (s : String) (strs : List String) (urls : List URL)
    (h : ∀ str ∈ strs, ∃ url, lib.urlParse str = .ok url) :
    ∃ parsed, urlsValue.SetLoop lib s strs urls = .ok (urls ++ parsed) ∧
      List.Forall₂ (fun str url => lib.urlParse str = .ok url) strs parsed := by
  induction strs generalizing urls with
  | nil => exact ⟨[], by simp [urlsValue.SetLoop], List.Forall₂.nil⟩
  | cons str strs ih =>
    obtain ⟨url, hurl⟩ := h str (List.mem_cons_self _ _)
    obtain ⟨parsed, hloop, hall⟩ :=
      ih (urls ++ [url]) (fun str' hstr' => h str' (List.mem_cons_of_mem _ hstr'))
    refine ⟨url :: parsed, ?_, List.Forall₂.cons hurl hall⟩
    simp [urlsValue.SetLoop, hurl, hloop]

/-- C6: `urlsValue.Set` parses a command line argument into the `[]url.URL` field.  For every
string `s` whose comma-separated segments all parse with `url.Parse`, `Set(s)` returns nil and
`v.URLs` becomes exactly the list of the parsed segments in their order in `s`, whatever
`v.URLs` held before; its length is the number of commas in `s` plus one, and for the empty
string it is the one URL that `url.Parse("")` gives. -/
theorem urlsValue_Set_parses (lib : Lib) (v : urlsValue) (s : String)
    (h : ∀ str ∈ stringsSplit s ',', ∃ url, lib.urlParse str = .ok url) :
    ∃ urls, urlsValue.Set lib v s = (⟨urls⟩, none) ∧
      List.Forall₂ (fun str url => lib.urlParse str = .ok url) (stringsSplit s ',') urls ∧
      urls.length = s.toList.count ',' + 1 ∧
      (s = "" → ∃ url, lib.urlParse "" = .ok url ∧ urls = [url]) := by
  obtain ⟨parsed, hloop, hall⟩ := urlsValue_SetLoop_ok lib s (stringsSplit s ',') [] h
  refine ⟨parsed, ?_, hall, ?_, ?_⟩
  · simp [urlsValue.Set, hloop]
  · rw [← hall.length_eq, stringsSplit, List.length_map, splitChars_length]
  · intro hs
    subst hs
    have hsplit : stringsSplit "" ',' = [""] := by decide
    rw [hsplit] at hall
    cases hall with
    | cons h1 h2 =>
      cases h2
      exact ⟨_, h1, rfl⟩

/-- C6 at concrete inputs: on a value that holds one old URL, `Set("a,,b")` leaves the three
URLs of the segments "a", "" and "b", and `Set("")` leaves the one empty URL. -/
theorem urlsValue_Set_parses_witness :
    (∃ urls, urlsValue.Set exampleLib ⟨[pathURL "old"]⟩ "a,,b" = (⟨urls⟩, none) ∧
      List.Forall₂ (fun str url => exampleLib.urlParse str = .ok url)
        (stringsSplit "a,,b" ',') urls ∧
      urls.length = "a,,b".toList.count ',' + 1 ∧
      ("a,,b" = "" → ∃ url, exampleLib.urlParse "" = .ok url ∧ urls = [url])) ∧
    urlsValue.Set exampleLib ⟨[pathURL "old"]⟩ "a,,b" =
      (⟨[pathURL "a", {}, pathURL "b"]⟩, none) ∧
    urlsValue.Set exampleLib ⟨[pathURL "old"]⟩ "" = (⟨[{}]⟩, none) :=
  ⟨urlsValue_Set_parses exampleLib ⟨[pathURL "old"]⟩ "a,,b" (fun _ _ => ⟨_, rfl⟩), rfl, rfl⟩

/-! ## `Command.Parse` -/

theorem FlagSet.AllSet_snoc {σ : Type} {P : (String → σ → σ × Option GoError) → Prop}
    {config config' : σ} {formal : List (Flag σ)} {flag : Flag σ}
    (h : FlagSet.AllSet P ⟨config, formal⟩) (hflag : P flag.Set) :
    FlagSet.AllSet P ⟨config', formal ++ [flag]⟩ := by
  intro f hf
  rcases List.mem_append.mp hf with hf | hf
  · exact h f hf
  · rw [List.mem_singleton.mp hf]
    exact hflag

theorem FlagSet.AllSet_StringVar {σ : Type} {P : (String → σ → σ × Option GoError) → Prop}
    {fs : FlagSet σ} (p : σ → String → σ) (name value usage : String)
    (h : FlagSet.AllSet P fs) (hp : P fun s config => (p config s, none)) :
    FlagSet.AllSet P (fs.StringVar p name value usage) :=
  FlagSet.AllSet_snoc h hp

theorem FlagSet.AllSet_IntVar {σ : Type} {P : (String → σ → σ × Option GoError) → Prop}
    {fs : FlagSet σ} (p : σ → Int → σ) (name : String) (value : Int) (usage : String)
    (h : FlagSet.AllSet P fs)
    (hp : P fun s config =>
      (p config (ParseInt s.toList).1, (ParseInt s.toList).2.map numError)) :
    FlagSet.AllSet P (fs.IntVar p name value usage) :=
  FlagSet.AllSet_snoc h hp

theorem FlagSet.AllSet_BoolVar {σ : Type} {P : (String → σ → σ × Option GoError) → Prop}
    {fs : FlagSet σ} (p : σ → Bool → σ) (name : String) (value : Bool) (usage : String)
    (h : FlagSet.AllSet P fs)
    (hp : P fun s config =>
      (p config (ParseBool s).1, (ParseBool s).2.map fun _ => GoError.msg "parse error")) :
    FlagSet.AllSet P (fs.BoolVar p name value usage) :=
  FlagSet.AllSet_snoc h hp

theorem FlagSet.AllSet_DurationVar {σ : Type} {P : (String → σ → σ × Option GoError) → Prop}
    {fs : FlagSet σ} (ParseDuration : String → Except GoError Int) (p : σ → Int → σ)
    (name : String) (value : Int) (usage : String) (h : FlagSet.AllSet P fs)
    (hp : P fun s config =>
      match ParseDuration s with
      | .ok d => (p config d, none)
      | .error _ => (p config 0, some (GoError.msg "parse error"))) :
    FlagSet.AllSet P (fs.DurationVar ParseDuration p name value usage) :=
  FlagSet.AllSet_snoc h hp

theorem FlagSet.AllSet_Var {σ : Type} {P : (String → σ → σ × Option GoError) → Prop}
    {fs : FlagSet σ} (set : String → σ → σ × Option GoError) (name usage : String)
    (h : FlagSet.AllSet P fs) (hp : P set) : FlagSet.AllSet P (fs.Var set name usage) :=
  FlagSet.AllSet_snoc h hp

/-- No flag of the registry flag set is bound to the exported `BlobSpeed` or `Registries`. -/
theorem newRegistryCommand_frame (lib : Lib) (config : RegistryConfig)
    (flag : Flag RegistryConfig) (hflag : flag ∈ (newRegistryCommand lib config).formal)
    (value : String) (c : RegistryConfig) :
    (flag.Set value c).1.BlobSpeed = c.BlobSpeed ∧
    (flag.Set value c).1.Registries = c.Registries := by
  have hall : FlagSet.AllSet (fun set => ∀ value c, (set value c).1.BlobSpeed = c.BlobSpeed ∧
      (set value c).1.Registries = c.Registries) (newRegistryCommand lib config) := by
    unfold newRegistryCommand
    repeat first
      | apply FlagSet.AllSet_StringVar
      | apply FlagSet.AllSet_IntVar
      | apply FlagSet.AllSet_BoolVar
      | apply FlagSet.AllSet_DurationVar
      | apply FlagSet.AllSet_Var
    · intro f hf
      simp at hf
    all_goals intro value c
    all_goals first
      | exact ⟨rfl, rfl⟩
      | (dsimp only; split <;> exact ⟨rfl, rfl⟩)
  exact hall flag hflag value c

/-- No flag of the configuration flag set is bound to the exported `Registries` or
`MirrorRegistries`. -/
theorem newConfigurationCommand_frame (lib : Lib) (config : ConfigurationConfig)
    (flag : Flag ConfigurationConfig) (hflag : flag ∈ (newConfigurationCommand lib config).formal)
    (value : String) (c : ConfigurationConfig) :
    (flag.Set value c).1.Registries = c.Registries ∧
    (flag.Set value c).1.MirrorRegistries = c.MirrorRegistries := by
  have hall : FlagSet.AllSet (fun set => ∀ value c, (set value c).1.Registries = c.Registries ∧
      (set value c).1.MirrorRegistries = c.MirrorRegistries)
      (newConfigurationCommand lib config) := by
    unfold newConfigurationCommand
    repeat first
      | apply FlagSet.AllSet_StringVar
      | apply FlagSet.AllSet_BoolVar
      | apply FlagSet.AllSet_Var
    · intro f hf
      simp at hf
    all_goals intro value c
    all_goals exact ⟨rfl, rfl⟩
  exact hall flag hflag value c

/-- A flag found by name is a flag of the flag set. -/
theorem FlagSet.lookup_mem {σ : Type} (formal : List (Flag σ)) (name : String) (flag : Flag σ)
    (h : FlagSet.lookup formal name = some flag) : flag ∈ formal :=
  List.mem_of_find?_eq_some h

/-- The `Set` calls of the `ffcli` command built by `New` leave the four exported fields of
non-standard type, and the command itself, as they are. -/
theorem Command.applySet_frame (lib : Lib) (parse : List String → CmdParse) (c : Command)
    (hcmd : c.cmd = (New lib parse).cmd) (call : SetCall) :
    (c.applySet call).cmd = c.cmd ∧
    (c.applySet call).Configuration.Registries = c.Configuration.Registries ∧
    (c.applySet call).Configuration.MirrorRegistries = c.Configuration.MirrorRegistries ∧
    (c.applySet call).Registry.Registries = c.Registry.Registries ∧
    (c.applySet call).Registry.BlobSpeed = c.Registry.BlobSpeed := by
  unfold Command.applySet
  split
  · split
    · rename_i flag hlookup
      have hmem := FlagSet.lookup_mem _ _ _ hlookup
      rw [hcmd] at hmem
      have := newRegistryCommand_frame lib {} flag hmem call.value c.Registry
      simp [this.1, this.2]
    · simp
  · split
    · rename_i flag hlookup
      have hmem := FlagSet.lookup_mem _ _ _ hlookup
      rw [hcmd] at hmem
      have := newConfigurationCommand_frame lib {} flag hmem call.value c.Configuration
      simp [this.1, this.2]
    · simp

/-- The frame of `Command.applySet_frame`, for a whole sequence of `Set` calls. -/
theorem Command.applySets_frame (lib : Lib) (parse : List String → CmdParse)
    (calls : List SetCall) (c : Command) (hcmd : c.cmd = (New lib parse).cmd) :
    (calls.foldl Command.applySet c).cmd = c.cmd ∧
    (calls.foldl Command.applySet c).Configuration.Registries = c.Configuration.Registries ∧
    (calls.foldl Command.applySet c).Configuration.MirrorRegistries =
      c.Configuration.MirrorRegistries ∧
    (calls.foldl Command.applySet c).Registry.Registries = c.Registry.Registries ∧
    (calls.foldl Command.applySet c).Registry.BlobSpeed = c.Registry.BlobSpeed := by
  induction calls generalizing c with
  | nil => simp
  | cons call calls ih =>
    obtain ⟨h0, h1, h2, h3, h4⟩ := Command.applySet_frame lib parse c hcmd call
    obtain ⟨i0, i1, i2, i3, i4⟩ := ih (c.applySet call) (h0.trans hcmd)
    simp only [List.foldl_cons]
    exact ⟨i0.trans h0, i1.trans h1, i2.trans h2, i3.trans h3, i4.trans h4⟩

/-- C8: `Command.Parse` updates the fields of non-standard type only on success.  For a command
built by `New`, whatever its two configurations hold: if the underlying parse returns nil, so
does `Parse`, and afterwards `Configuration.Registries = registriesValue.URLs`,
`Configuration.MirrorRegistries = mirrorRegistriesValue.URLs`,
`Registry.Registries = Registry.registriesValue.URLs` and `Registry.BlobSpeed` is a non-nil
pointer whose value equals `blobSpeedValue`, these values being the ones the `Set` calls of the
underlying parse left in the flag variables, and every other field being as those calls left
it; if the underlying parse returns an error, `Parse` returns that error, these four exported
fields are left unchanged, and the command is otherwise as the `Set` calls left it. -/
theorem Command_Parse_updates_only_on_success (lib : Lib) (parse : List String → CmdParse)
    (configuration : ConfigurationConfig) (registry : RegistryConfig) (args : List String) :
    ((parse args).err = none →
      (Command.Parse ⟨configuration, registry, (New lib parse).cmd⟩ args).2 = none ∧
      (Command.Parse ⟨configuration, registry, (New lib parse).cmd⟩ args).1.Configuration.Registries =
        (Command.Parse ⟨configuration, registry, (New lib parse).cmd⟩
          args).1.Configuration.registriesValue.URLs ∧
      (Command.Parse ⟨configuration, registry, (New lib parse).cmd⟩
          args).1.Configuration.MirrorRegistries =
        (Command.Parse ⟨configuration, registry, (New lib parse).cmd⟩
          args).1.Configuration.mirrorRegistriesValue.URLs ∧
      (Command.Parse ⟨configuration, registry, (New lib parse).cmd⟩ args).1.Registry.Registries =
        (Command.Parse ⟨configuration, registry, (New lib parse).cmd⟩
          args).1.Registry.registriesValue.URLs ∧
      (∃ p, (Command.Parse ⟨configuration, registry, (New lib parse).cmd⟩
          args).1.Registry.BlobSpeed = some p ∧
        (Command.Parse ⟨configuration, registry, (New lib parse).cmd⟩ args).1.Registry.deref p =
          (Command.Parse ⟨configuration, registry, (New lib parse).cmd⟩
            args).1.Registry.blobSpeedValue) ∧
      (Command.Parse ⟨configuration, registry, (New lib parse).cmd⟩ args).1.Configuration.Registries =
        (Command.afterSets ⟨configuration, registry, (New lib parse).cmd⟩
          args).Configuration.registriesValue.URLs ∧
      (Command.Parse ⟨configuration, registry, (New lib parse).cmd⟩
          args).1.Configuration.MirrorRegistries =
        (Command.afterSets ⟨configuration, registry, (New lib parse).cmd⟩
          args).Configuration.mirrorRegistriesValue.URLs ∧
      (Command.Parse ⟨configuration, registry, (New lib parse).cmd⟩ args).1.Registry.Registries =
        (Command.afterSets ⟨configuration, registry, (New lib parse).cmd⟩
          args).Registry.registriesValue.URLs ∧
      (Command.Parse ⟨configuration, registry, (New lib parse).cmd⟩ args).1.Registry.BlobSpeed =
        some ByteratePtr.blobSpeedValueAddr ∧
      (Command.Parse ⟨configuration, registry, (New lib parse).cmd⟩ args).1.Registry.deref
          ByteratePtr.blobSpeedValueAddr =
        (Command.afterSets ⟨configuration, registry, (New lib parse).cmd⟩
          args).Registry.blobSpeedValue ∧
      (Command.Parse ⟨configuration, registry, (New lib parse).cmd⟩ args).1.Configuration =
        { (Command.afterSets ⟨configuration, registry, (New lib parse).cmd⟩
            args).Configuration with
          Registries := (Command.afterSets ⟨configuration, registry, (New lib parse).cmd⟩
            args).Configuration.registriesValue.URLs
          MirrorRegistries := (Command.afterSets ⟨configuration, registry, (New lib parse).cmd⟩
            args).Configuration.mirrorRegistriesValue.URLs } ∧
      (Command.Parse ⟨configuration, registry, (New lib parse).cmd⟩ args).1.Registry =
        { (Command.afterSets ⟨configuration, registry, (New lib parse).cmd⟩ args).Registry with
          BlobSpeed := some ByteratePtr.blobSpeedValueAddr
          Registries := (Command.afterSets ⟨configuration, registry, (New lib parse).cmd⟩
            args).Registry.registriesValue.URLs }) ∧
    (∀ err, (parse args).err = some err →
      (Command.Parse ⟨configuration, registry, (New lib parse).cmd⟩ args).2 = some err ∧
      (Command.Parse ⟨configuration, registry, (New lib parse).cmd⟩ args).1.Configuration.Registries =
        configuration.Registries ∧
      (Command.Parse ⟨configuration, registry, (New lib parse).cmd⟩
          args).1.Configuration.MirrorRegistries = configuration.MirrorRegistries ∧
      (Command.Parse ⟨configuration, registry, (New lib parse).cmd⟩ args).1.Registry.Registries =
        registry.Registries ∧
      (Command.Parse ⟨configuration, registry, (New lib parse).cmd⟩ args).1.Registry.BlobSpeed =
        registry.BlobSpeed ∧
      (Command.Parse ⟨configuration, registry, (New lib parse).cmd⟩ args).1.Configuration =
        (Command.afterSets ⟨configuration, registry, (New lib parse).cmd⟩ args).Configuration ∧
      (Command.Parse ⟨configuration, registry, (New lib parse).cmd⟩ args).1.Registry =
        (Command.afterSets ⟨configuration, registry, (New lib parse).cmd⟩ args).Registry) := by
  have hparse : (New lib parse).cmd.Parse = parse := rfl
  constructor
  · intro hok
    simp [Command.Parse, hparse, hok, RegistryConfig.deref]
  · intro err herr
    obtain ⟨_, h1, h2, h3, h4⟩ := Command.applySets_frame lib parse (parse args).sets
      ⟨configuration, registry, (New lib parse).cmd⟩ rfl
    simp only [Command.Parse, hparse, herr]
    exact ⟨trivial, h1, h2, h3, h4, trivial, trivial⟩

/-- C8 at concrete inputs, on the command of `New` with one old registry stored in the exported
fields.  Parsing `registry -registries=a,b -blob-speed=7` returns nil and leaves the registries
`a` and `b` in `Registry.Registries` and a `BlobSpeed` that points to 7; parsing
`configuration -registries=a -mirror-registries=m,n` returns nil and leaves `a` in
`Configuration.Registries` and `m`, `n` in `Configuration.MirrorRegistries`; and the parse of
the first command line that fails on an environment variable returns the error and leaves the
old registry and the nil `BlobSpeed`, though the flag variables hold the parsed values. -/
theorem Command_Parse_updates_only_on_success_witness :
    ((Command.Parse ⟨{}, { Registries := [pathURL "old"] }, (New exampleLib settingParse).cmd⟩
        ["registry", "-registries=a,b", "-blob-speed=7"]).2 = none ∧
      (Command.Parse ⟨{}, { Registries := [pathURL "old"] }, (New exampleLib settingParse).cmd⟩
        ["registry", "-registries=a,b", "-blob-speed=7"]).1.Registry.Registries =
          [pathURL "a", pathURL "b"] ∧
      (Command.Parse ⟨{}, { Registries := [pathURL "old"] }, (New exampleLib settingParse).cmd⟩
        ["registry", "-registries=a,b", "-blob-speed=7"]).1.Registry.BlobSpeed =
          some ByteratePtr.blobSpeedValueAddr ∧
      (Command.Parse ⟨{}, { Registries := [pathURL "old"] }, (New exampleLib settingParse).cmd⟩
        ["registry", "-registries=a,b", "-blob-speed=7"]).1.Registry.deref
          ByteratePtr.blobSpeedValueAddr = 7) ∧
    ((Command.Parse ⟨{ Registries := [pathURL "old"], MirrorRegistries := [pathURL "old"] }, {},
        (New exampleLib configurationParse).cmd⟩
        ["configuration", "-registries=a", "-mirror-registries=m,n"]).2 = none ∧
      (Command.Parse ⟨{ Registries := [pathURL "old"], MirrorRegistries := [pathURL "old"] }, {},
        (New exampleLib configurationParse).cmd⟩
        ["configuration", "-registries=a", "-mirror-registries=m,n"]).1.Configuration.Registries =
          [pathURL "a"] ∧
      (Command.Parse ⟨{ Registries := [pathURL "old"], MirrorRegistries := [pathURL "old"] }, {},
        (New exampleLib configurationParse).cmd⟩
        ["configuration", "-registries=a",
          "-mirror-registries=m,n"]).1.Configuration.MirrorRegistries =
          [pathURL "m", pathURL "n"]) ∧
    ((Command.Parse ⟨{}, { Registries := [pathURL "old"] }, (New exampleLib failingParse).cmd⟩
        ["registry", "-registries=a,b", "-blob-speed=7"]).2 =
          some (GoError.wrap "error parsing env vars: parse error"
            (GoError.msg "parse error")) ∧
      (Command.Parse ⟨{}, { Registries := [pathURL "old"] }, (New exampleLib failingParse).cmd⟩
        ["registry", "-registries=a,b", "-blob-speed=7"]).1.Registry.Registries =
          [pathURL "old"] ∧
      (Command.Parse ⟨{}, { Registries := [pathURL "old"] }, (New exampleLib failingParse).cmd⟩
        ["registry", "-registries=a,b", "-blob-speed=7"]).1.Registry.BlobSpeed = none ∧
      (Command.Parse ⟨{}, { Registries := [pathURL "old"] }, (New exampleLib failingParse).cmd⟩
        ["registry", "-registries=a,b", "-blob-speed=7"]).1.Registry.registriesValue.URLs =
          [pathURL "a", pathURL "b"] ∧
      (Command.Parse ⟨{}, { Registries := [pathURL "old"] }, (New exampleLib failingParse).cmd⟩
        ["registry", "-registries=a,b", "-blob-speed=7"]).1.Registry.blobSpeedValue = 7) :=
  have hok := (Command_Parse_updates_only_on_success exampleLib settingParse {}
    { Registries := [pathURL "old"] } ["registry", "-registries=a,b", "-blob-speed=7"]).1 rfl
  have hconf := (Command_Parse_updates_only_on_success exampleLib configurationParse
    { Registries := [pathURL "old"], MirrorRegistries := [pathURL "old"] } {}
    ["configuration", "-registries=a", "-mirror-registries=m,n"]).1 rfl
  have hfail := (Command_Parse_updates_only_on_success exampleLib failingParse {}
    { Registries := [pathURL "old"] } ["registry", "-registries=a,b", "-blob-speed=7"]).2 _ rfl
  ⟨⟨hok.1, hok.2.2.2.2.2.2.2.1.trans rfl, hok.2.2.2.2.2.2.2.2.1,
      hok.2.2.2.2.2.2.2.2.2.1.trans rfl⟩,
    ⟨hconf.1, hconf.2.2.2.2.2.1.trans rfl, hconf.2.2.2.2.2.2.1.trans rfl⟩,
    ⟨hfail.1, hfail.2.2.2.1, hfail.2.2.2.2.1, rfl, rfl⟩⟩

/-! ## The `blob-speed` flag -/

/-- A range error of the digit loop comes with the largest 64-bit value. -/
theorem parseUintLoop_reject (base : Nat) (base0 : Bool) (hbase : base ≤ 25) (cs : List Char)
    (n : Nat) (underscores : Bool) (hp : 'p' ∈ cs) :
    ∃ v u err, parseUintLoop base base0 cs n underscores = (v, u, some err) ∧
      (err = NumError.ErrRange → v = 2 ^ 64 - 1) := by
  induction cs generalizing n underscores with
  | nil => simp at hp
  | cons c cs ih =>
    unfold parseUintLoop
    by_cases hc : c = 'p'
    · subst hc
      have hd : digitVal 'p' = some 25 := by decide
      have hne : ¬ ('p' = '_' ∧ base0 = true) := by simp
      rw [if_neg hne, hd]
      simp only
      rw [if_pos (show 25 ≥ base from hbase)]
      exact ⟨0, underscores, NumError.ErrSyntax, rfl, by simp⟩
    · have hp' : 'p' ∈ cs := by
        rcases List.mem_cons.mp hp with h | h
        · exact absurd h.symm hc
        · exact h
      split
      · exact ih n true hp'
      · split
        · exact ⟨0, underscores, NumError.ErrSyntax, rfl, by simp⟩
        · split
          · exact ⟨0, underscores, NumError.ErrSyntax, rfl, by simp⟩
          · split
            · exact ⟨2 ^ 64 - 1, underscores, NumError.ErrRange, rfl, fun _ => rfl⟩
            · split
              · exact ⟨2 ^ 64 - 1, underscores, NumError.ErrRange, rfl, fun _ => rfl⟩
              · exact ih _ underscores hp'

/-- The base found is at most 16 and the digits still hold every `p` of the string. -/
theorem basePrefix_keeps (s : List Char) (hp : 'p' ∈ s) :
    (basePrefix s).1 ≤ 25 ∧ 'p' ∈ (basePrefix s).2 := by
  unfold basePrefix
  split
  · rename_i c1 c2 rest
    have hp' : 'p' ∈ c1 :: c2 :: rest := by simpa using hp
    split
    · rename_i h
      refine ⟨by simp, ?_⟩
      rcases List.mem_cons.mp hp' with h1 | h1
      · subst h1; exact absurd h (by decide)
      · exact h1
    · split
      · rename_i h
        refine ⟨by simp, ?_⟩
        rcases List.mem_cons.mp hp' with h1 | h1
        · subst h1; exact absurd h (by decide)
        · exact h1
      · split
        · rename_i h
          refine ⟨by simp, ?_⟩
          rcases List.mem_cons.mp hp' with h1 | h1
          · subst h1; exact absurd h (by decide)
          · exact h1
        · exact ⟨by simp, hp'⟩
  · rename_i rest _
    exact ⟨by simp, by simpa using hp⟩
  · exact ⟨by simp, hp⟩

/-- `strconv.ParseUint` rejects every string that holds a `p`. -/
theorem ParseUint_reject (s : List Char) (hp : 'p' ∈ s) :
    ∃ v err, ParseUint s = (v, some err) ∧ (err = NumError.ErrRange → v = 2 ^ 64 - 1) := by
  have hne : s ≠ [] := by
    intro h
    simp [h] at hp
  obtain ⟨hbase, hdigits⟩ := basePrefix_keeps s hp
  obtain ⟨v, u, err, hloop, hrange⟩ :=
    parseUintLoop_reject (basePrefix s).1 true hbase (basePrefix s).2 0 false hdigits
  exact ⟨v, err, by simp [ParseUint, hne, hloop], hrange⟩

/-- The sign is no `p`. -/
theorem signOf_keeps (s : List Char) (hp : 'p' ∈ s) : 'p' ∈ (signOf s).2 := by
  unfold signOf
  split
  · simpa using hp
  · simpa using hp
  · exact hp

/-- `strconv.ParseInt` rejects every string that holds a `p`: no rate written with one of the
units `Bps`, `KBps`, `MBps`, `GBps`, `TBps` is an integer. -/
theorem ParseInt_reject (s : List Char) (hp : 'p' ∈ s) : (ParseInt s).2 ≠ none := by
  have hne : s ≠ [] := by
    intro h
    simp [h] at hp
  obtain ⟨v, err, hparse, hrange⟩ := ParseUint_reject (signOf s).2 (signOf_keeps s hp)
  unfold ParseInt
  rw [if_neg hne, hparse]
  cases err with
  | ErrSyntax => simp
  | ErrRange =>
    have hv := hrange rfl
    subst hv
    cases (signOf s).1 <;> simp

theorem FlagSet.HeadIs_snoc {σ : Type} {flag : Flag σ} {config config' : σ}
    {formal : List (Flag σ)} (g : Flag σ) (h : FlagSet.HeadIs flag ⟨config, formal⟩) :
    FlagSet.HeadIs flag ⟨config', formal ++ [g]⟩ := by
  obtain ⟨rest, hrest⟩ := h
  exact ⟨rest ++ [g], by simp only [] at hrest; simp [hrest]⟩

theorem FlagSet.HeadIs_StringVar {σ : Type} {flag : Flag σ} {fs : FlagSet σ}
    (p : σ → String → σ) (name value usage : String) (h : FlagSet.HeadIs flag fs) :
    FlagSet.HeadIs flag (fs.StringVar p name value usage) :=
  FlagSet.HeadIs_snoc _ h

theorem FlagSet.HeadIs_IntVar {σ : Type} {flag : Flag σ} {fs : FlagSet σ}
    (p : σ → Int → σ) (name : String) (value : Int) (usage : String)
    (h : FlagSet.HeadIs flag fs) : FlagSet.HeadIs flag (fs.IntVar p name value usage) :=
  FlagSet.HeadIs_snoc _ h

theorem FlagSet.HeadIs_BoolVar {σ : Type} {flag : Flag σ} {fs : FlagSet σ}
    (p : σ → Bool → σ) (name : String) (value : Bool) (usage : String)
    (h : FlagSet.HeadIs flag fs) : FlagSet.HeadIs flag (fs.BoolVar p name value usage) :=
  FlagSet.HeadIs_snoc _ h

theorem FlagSet.HeadIs_DurationVar {σ : Type} {flag : Flag σ} {fs : FlagSet σ}
    (ParseDuration : String → Except GoError Int) (p : σ → Int → σ) (name : String)
    (value : Int) (usage : String) (h : FlagSet.HeadIs flag fs) :
    FlagSet.HeadIs flag (fs.DurationVar ParseDuration p name value usage) :=
  FlagSet.HeadIs_snoc _ h

theorem FlagSet.HeadIs_Var {σ : Type} {flag : Flag σ} {fs : FlagSet σ}
    (set : String → σ → σ × Option GoError) (name usage : String)
    (h : FlagSet.HeadIs flag fs) : FlagSet.HeadIs flag (fs.Var set name usage) :=
  FlagSet.HeadIs_snoc _ h

/-- The first flag of the registry flag set is `blob-speed`, an `int` flag. -/
theorem newRegistryCommand_blobSpeed (lib : Lib) (config : RegistryConfig) :
    ∃ usage rest, (newRegistryCommand lib config).formal =
      ⟨"blob-speed", usage, false, fun s c =>
        ({ c with blobSpeedValue := (ParseInt s.toList).1 },
          (ParseInt s.toList).2.map numError)⟩ :: rest := by
  apply Exists.intro
  show FlagSet.HeadIs _ (newRegistryCommand lib config)
  unfold newRegistryCommand
  iterate 17 with_reducible first
    | apply FlagSet.HeadIs_IntVar
    | apply FlagSet.HeadIs_StringVar
    | apply FlagSet.HeadIs_BoolVar
    | apply FlagSet.HeadIs_DurationVar
    | apply FlagSet.HeadIs_Var
  exact ⟨[], rfl⟩

/-- A flag that `parseOne` has seen took at least one argument. -/
theorem FlagSet.parseOne_seen_length {σ : Type} (formal : List (Flag σ)) (args args' : List String)
    (config config' : σ) (h : FlagSet.parseOne formal args config = .seen config' args') :
    args'.length < args.length := by
  unfold FlagSet.parseOne at h
  split at h
  · simp at h
  · dsimp only at h
    repeat' (split at h)
    all_goals first
      | (simp at h; done)
      | (simp only [ParseOneResult.seen.injEq] at h
         simp only [← h.2, List.length_cons]
         omega)

/-- The loop of `Parse` gives the same outcome for every fuel above the number of arguments:
the fuel `Parse` gives it never runs out. -/
theorem FlagSet.parseLoop_fuel {σ : Type} (formal : List (Flag σ)) (fuel fuel' : Nat)
    (args : List String) (config : σ) (h : args.length < fuel) (h' : args.length < fuel') :
    FlagSet.parseLoop formal fuel args config = FlagSet.parseLoop formal fuel' args config := by
  induction fuel generalizing fuel' args config with
  | zero => omega
  | succ fuel ih =>
    cases fuel' with
    | zero => omega
    | succ fuel' =>
      unfold FlagSet.parseLoop
      cases hone : FlagSet.parseOne formal args config with
      | seen config' args' =>
        have hlen := FlagSet.parseOne_seen_length formal args args' config config' hone
        exact ih fuel' args' config' (by omega) (by omega)
      | done config' args' => rfl
      | failed code config' => rfl

/-- Parsing the one argument `-name=value`, for a flag that is no boolean flag and whose `Set`
rejects the value, ends the process with status 2. -/
theorem FlagSet_Parse_invalid_value {σ : Type} (formal : List (Flag σ)) (flag : Flag σ)
    (s : String) (c : Char) (cs name value : List Char) (config : σ) (err : GoError)
    (hs : s.toList = '-' :: c :: cs) (hc : c ≠ '-') (hc' : c ≠ '=')
    (hsplit : splitNameValue (c :: cs) = (name, some value))
    (hlookup : FlagSet.lookup formal (String.mk name) = some flag)
    (hbool : flag.IsBoolFlag = false)
    (hset : (flag.Set (String.mk value) config).2 = some err) :
    FlagSet.Parse formal [s] config =
      ParseOutcome.osExit 2 (flag.Set (String.mk value) config).1 := by
  have h1 : ¬ (s.toList.length < 2 ∨ s.toList.head? ≠ some '-') := by
    rw [hs]
    simp
  have h2 : ¬ (s.toList.get? 1 = some '-' ∧ s.toList.length = 2) := by
    rw [hs]
    simp [hc]
  have h3 : (if s.toList.get? 1 = some '-' then s.toList.drop 2 else s.toList.drop 1) =
      c :: cs := by
    rw [hs]
    simp [hc]
  have h4 : ¬ (c :: cs = [] ∨ (c :: cs).head? = some '-' ∨ (c :: cs).head? = some '=') := by
    simp [hc, hc']
  have hone : FlagSet.parseOne formal [s] config =
      .failed 2 (flag.Set (String.mk value) config).1 := by
    unfold FlagSet.parseOne
    simp only [if_neg h1, if_neg h2, h3, if_neg h4, hsplit, hlookup, hbool]
    cases hres : flag.Set (String.mk value) config with
    | mk config' err' =>
      rw [hres] at hset
      simp only at hset
      subst hset
      rfl
  simp [FlagSet.Parse, FlagSet.parseLoop, hone]

/-- Parsing `-blob-speed=value` for a value that holds a `p` ends the process with status 2. -/
theorem FlagSet_Parse_blobSpeed_reject (lib : Lib) (config c : RegistryConfig) (value : String)
    (hp : 'p' ∈ value.toList) :
    ∃ c', FlagSet.Parse (newRegistryCommand lib config).formal ["-blob-speed=" ++ value] c =
      ParseOutcome.osExit 2 c' := by
  obtain ⟨usage, rest, hformal⟩ := newRegistryCommand_blobSpeed lib config
  obtain ⟨e, he⟩ := Option.ne_none_iff_exists'.mp (ParseInt_reject value.toList hp)
  have hs : ("-blob-speed=" ++ value).toList =
      '-' :: 'b' :: ("lob-speed=".toList ++ value.toList) := by
    simp [String.toList]
  have hsplit : splitNameValue ('b' :: ("lob-speed=".toList ++ value.toList)) =
      ("blob-speed".toList, some value.toList) := by
    simp [splitNameValue, List.span_eq_take_drop, List.takeWhile_cons, List.dropWhile_cons]
  have hlookup : FlagSet.lookup (newRegistryCommand lib config).formal
      (String.mk "blob-speed".toList) = some ⟨"blob-speed", usage, false, fun s c =>
        ({ c with blobSpeedValue := (ParseInt s.toList).1 },
          (ParseInt s.toList).2.map numError)⟩ := by
    rw [hformal]
    simp [FlagSet.lookup]
  have hset : (({ c with blobSpeedValue := (ParseInt (String.mk value.toList).toList).1 },
      (ParseInt (String.mk value.toList).toList).2.map numError) :
        RegistryConfig × Option GoError).2 = some (numError e) := by
    show Option.map numError (ParseInt value.toList).2 = some (numError e)
    rw [he]
    rfl
  exact ⟨_, FlagSet_Parse_invalid_value (newRegistryCommand lib config).formal _
    ("-blob-speed=" ++ value) 'b' ("lob-speed=".toList ++ value.toList) "blob-speed".toList
    value.toList c (numError e) hs (by decide) (by decide) hsplit hlookup rfl hset⟩

/-- C5 fails on the code.  The `blob-speed` flag is an `int` flag, so for every non-negative
integer `n` and every unit among `Bps`, `KBps`, `MBps`, `GBps` and `TBps`, parsing the
registry flags with `-blob-speed=<n><unit>` does not succeed: the value is rejected and the
flag set, made with `flag.ExitOnError`, ends the process with status 2. -/
theorem blobSpeed_flag_rejects_rate_with_unit (lib : Lib) (config c : RegistryConfig) (n : Nat)
    (unit : String) (hunit : unit ∈ ["Bps", "KBps", "MBps", "GBps", "TBps"]) :
    ∃ c', FlagSet.Parse (newRegistryCommand lib config).formal
      ["-blob-speed=" ++ toString n ++ unit] c = ParseOutcome.osExit 2 c' := by
  have hp : 'p' ∈ (toString n ++ unit).toList := by
    have hu : 'p' ∈ unit.toList := by
      simp only [List.mem_cons, List.mem_singleton, List.not_mem_nil, or_false] at hunit
      rcases hunit with h | h | h | h | h <;> subst h <;> decide
    simp only [String.toList, String.data_append, List.mem_append]
    exact Or.inr hu
  rw [String.append_assoc]
  exact FlagSet_Parse_blobSpeed_reject lib config c (toString n ++ unit) hp

/-- The failing input of C5: `-blob-speed=10MBps` on the registry flag set as
`newRegistryCommand` leaves it ends the process with status 2, the speed left at 0. -/
theorem blobSpeed_flag_rejects_rate_with_unit_witness :
    (∃ c', FlagSet.Parse (newRegistryCommand exampleLib {}).formal
      ["-blob-speed=" ++ toString 10 ++ "MBps"] (newRegistryCommand exampleLib {}).config =
        ParseOutcome.osExit 2 c') ∧
    FlagSet.Parse (newRegistryCommand exampleLib {}).formal ["-blob-speed=10MBps"]
      (newRegistryCommand exampleLib {}).config =
        ParseOutcome.osExit 2 (newRegistryCommand exampleLib {}).config :=
  ⟨blobSpeed_flag_rejects_rate_with_unit exampleLib {} _ 10 "MBps" (by decide), by rfl⟩

/-- After a `Parse` that returned nil, `BlobSpeed` is the address of `blobSpeedValue`. -/
theorem Command.Parse_ok_BlobSpeed (c : Command) (args : List String)
    (h : (c.Parse args).2 = none) :
    (c.Parse args).1.Registry.BlobSpeed = some ByteratePtr.blobSpeedValueAddr := by
  unfold Command.Parse at h ⊢
  split at h
  · simp at h
  · rename_i herr
    simp [herr]

/-- C1 fails on the code.  For every command on which `Parse` succeeded with
`blobSpeedValue = 0`, whenever `registryExec` on its registry configuration gets to
`registry.NewRegistry`, the options it passes are the four resolver options followed by
`WithBlobSpeed(0)`: `Parse` always stores the address of `blobSpeedValue` in `BlobSpeed`, so
the nil check of `registryExec` never skips the option. -/
theorem registryExec_after_Parse_passes_WithBlobSpeed (c : Command) (args : List String)
    (env : Env) (ociClient : OciClient) (router : Router) (opts : List RegistryOption)
    (hParse : (c.Parse args).2 = none)
    (hzero : (c.Parse args).1.Registry.blobSpeedValue = 0)
    (h : Call.NewRegistry ociClient router opts ∈
      (registryExec env (c.Parse args).1.Registry).trace) :
    opts = [RegistryOption.WithResolveLatestTag (c.Parse args).1.Registry.ResolveLatestTag,
      RegistryOption.WithResolveRetries (c.Parse args).1.Registry.MirrorResolveRetries,
      RegistryOption.WithResolveTimeout (c.Parse args).1.Registry.MirrorResolveTimeout,
      RegistryOption.WithLocalAddress (c.Parse args).1.Registry.LocalAddr,
      RegistryOption.WithBlobSpeed 0] ∧
    RegistryOption.WithBlobSpeed 0 ∈ opts := by
  obtain ⟨hopts, -, -⟩ := registryExec_NewRegistry_inv env _ ociClient router opts h
  rw [Command.Parse_ok_BlobSpeed c args hParse] at hopts
  simp only [RegistryConfig.deref, hzero] at hopts
  rw [hopts]
  simp

/-- The failing input of C1: the command of `New` parses
`registry -boostrap-kind=http -registry-addr=:5000`, which sets no blob speed, and
`registryExec` then passes `WithBlobSpeed(0)` as a fifth option to `registry.NewRegistry`. -/
theorem registryExec_after_Parse_passes_WithBlobSpeed_witness :
    ((New exampleLib registryParse).Parse
      ["registry", "-boostrap-kind=http", "-registry-addr=:5000"]).2 = none ∧
    ((New exampleLib registryParse).Parse
      ["registry", "-boostrap-kind=http", "-registry-addr=:5000"]).1.Registry.blobSpeedValue = 0 ∧
    Call.NewRegistry ⟨"/run/containerd/containerd.sock", "k8s.io", "", []⟩
        ⟨"", some (Bootstrapper.NewHTTPBootstrapper "" ""), "5000"⟩
        [RegistryOption.WithResolveLatestTag true, RegistryOption.WithResolveRetries 3,
          RegistryOption.WithResolveTimeout 5000000000, RegistryOption.WithLocalAddress "",
          RegistryOption.WithBlobSpeed 0] ∈
      (registryExec quietEnv ((New exampleLib registryParse).Parse
        ["registry", "-boostrap-kind=http", "-registry-addr=:5000"]).1.Registry).trace ∧
    RegistryOption.WithBlobSpeed 0 ∈
      [RegistryOption.WithResolveLatestTag true, RegistryOption.WithResolveRetries 3,
        RegistryOption.WithResolveTimeout 5000000000, RegistryOption.WithLocalAddress "",
        RegistryOption.WithBlobSpeed 0] :=
  ⟨rfl, rfl, by decide,
    (registryExec_after_Parse_passes_WithBlobSpeed (New exampleLib registryParse)
      ["registry", "-boostrap-kind=http", "-registry-addr=:5000"] quietEnv
      ⟨"/run/containerd/containerd.sock", "k8s.io", "", []⟩
      ⟨"", some (Bootstrapper.NewHTTPBootstrapper "" ""), "5000"⟩ _ rfl rfl (by decide)).2⟩

end Spegel
